import Mathlib

/-!
# lua-zmq: the binding layer of `zmq.c`

A shallow embedding of the Lua C functions of `src/zmq.c` and proofs about them.

* The host runtime is modelled by the argument list of a C function (the Lua
  stack at entry, index 1 first), the values it pushes and the number of
  results it returns (the top of the stack).
* The native engine is an arbitrary oracle `Zmq E` over an engine state `E`:
  every native call receives the engine state and the C `errno` and returns
  its status together with the new engine state and `errno`.
* Every native call the binding makes is appended to a trace, so that
  statements about which native calls happen, and in which order, can be made.
-/

namespace LuaZmq

/-! ## Bytes and machine integers -/

abbrev Byte := Fin 256

abbrev Bytes := List Byte

/-- Two's complement reading of an integer in 64 bits (`int64_t`, and `long` and
`lua_Integer` on an LP64 platform). -/
def wrap64 (n : Int) : Int := (n + 2 ^ 63) % 2 ^ 64 - 2 ^ 63

/-- Two's complement reading of an integer in 32 bits (`int`). -/
def wrap32 (n : Int) : Int := (n + 2 ^ 31) % 2 ^ 32 - 2 ^ 31

/-- Byte `i` of the little-endian representation of a 64-bit word. -/
def byte_at (w : Nat) (i : Nat) : Byte := ⟨(w / 256 ^ i) % 256, Nat.mod_lt _ (by decide)⟩

/-- The eight bytes at `&optval` for a 64-bit `optval` (little-endian, two's
complement): what `zmq_setsockopt (..., &optval, sizeof (int64_t))` reads. -/
def bytes64 (v : Int) : Bytes := (List.range 8).map (byte_at (v % 2 ^ 64).toNat)

/-- Value of a little-endian byte sequence as an unsigned number. -/
def le_value : Bytes → Nat
  | [] => 0
  | b :: bs => b.val + 256 * le_value bs

/-- Result of `memcpy`-ing `data` to the start of a buffer holding `buf`: the
buffer keeps its size, bytes past the buffer are not written. -/
def writeBuf (buf data : Bytes) : Bytes := (data ++ buf.drop data.length).take buf.length

/-- The C string at the start of a byte sequence: the bytes before the first zero
byte (`strlen` of them). -/
def cstr (b : Bytes) : Bytes := b.takeWhile (fun c => c != 0)

/-! ## Lua values and the auxiliary library -/

/-- The three metatable names of the module. -/
inductive MT
  | MT_ZMQ_CONTEXT
  | MT_ZMQ_MESSAGE
  | MT_ZMQ_SOCKET
deriving DecidableEq, Repr

/-- Lua values as the binding sees them. A number is represented by its integer
value; a userdata by its address and the metatable set on it, if any. -/
inductive LuaValue
  | nil
  | boolean (b : Bool)
  | number (n : Int)
  | string (s : Bytes)
  | userdata (mt : Option MT) (addr : Nat)
deriving DecidableEq

/-- A Lua error raised by an argument check of the auxiliary library. -/
inductive LuaError
  | typerror (narg : Nat)
deriving DecidableEq, Repr

/-- The coercions between strings and numbers that the host runtime applies in
`lua_tointeger` and `lua_tolstring`. -/
structure Lua where
  cvt2num : Bytes → Option Int
  tostring : Int → Bytes

/-- Argument `narg` of a C function (1-based), `none` past the top of the stack. -/
def lua_arg (args : List LuaValue) (narg : Nat) : Option LuaValue :=
  if narg = 0 then none else args.get? (narg - 1)

def luaL_checkudata (args : List LuaValue) (narg : Nat) (tname : MT) : Except LuaError Nat :=
  match lua_arg args narg with
  | some (.userdata (some mt) addr) => if mt = tname then .ok addr else .error (.typerror narg)
  | _ => .error (.typerror narg)

def luaL_checkinteger (L : Lua) (args : List LuaValue) (narg : Nat) : Except LuaError Int :=
  match lua_arg args narg with
  | some (.number n) => .ok (wrap64 n)
  | some (.string s) =>
    match L.cvt2num s with
    | some n => .ok (wrap64 n)
    | none => .error (.typerror narg)
  | _ => .error (.typerror narg)

/-- The C cast `(int) luaL_checkinteger (L, narg)`. -/
def luaL_checkint (L : Lua) (args : List LuaValue) (narg : Nat) : Except LuaError Int :=
  match luaL_checkinteger L args narg with
  | .ok n => .ok (wrap32 n)
  | .error e => .error e

/-- The C cast `(long) luaL_checkinteger (L, narg)`, `long` being 64 bits wide. -/
def luaL_checklong (L : Lua) (args : List LuaValue) (narg : Nat) : Except LuaError Int :=
  luaL_checkinteger L args narg

def luaL_optint (L : Lua) (args : List LuaValue) (narg : Nat) (d : Int) : Except LuaError Int :=
  match lua_arg args narg with
  | none => .ok d
  | some .nil => .ok d
  | some _ => luaL_checkint L args narg

def luaL_checklstring (L : Lua) (args : List LuaValue) (narg : Nat) : Except LuaError Bytes :=
  match lua_arg args narg with
  | some (.string s) => .ok s
  | some (.number n) => .ok (L.tostring n)
  | _ => .error (.typerror narg)

/-- The C string `luaL_checkstring` hands out: the bytes up to the first zero. -/
def luaL_checkstring (L : Lua) (args : List LuaValue) (narg : Nat) : Except LuaError Bytes :=
  match luaL_checklstring L args narg with
  | .ok s => .ok (cstr s)
  | .error e => .error e

/-- The results of a C function that returns `n`: the top `n` values of its stack. -/
def ret (stack : List LuaValue) (n : Nat) : List LuaValue := stack.drop (stack.length - n)

/-- Effect of `luaL_getmetatable (L, tname); lua_setmetatable (L, -2)` on a stack
whose top is a userdata. -/
def set_top_metatable (stack : List LuaValue) (tname : MT) : List LuaValue :=
  match stack.getLast? with
  | some (.userdata _ addr) => stack.dropLast ++ [.userdata (some tname) addr]
  | _ => stack

/-! ## Constants of `zmq.h` and `errno.h` -/

/-- The option identifiers of `zmq.h` and `EINVAL` of `errno.h`, which are not
part of the repository. The only fact used about the identifiers is that they
are an enumeration: the twelve identifiers `luaopen_zmq` exports are pairwise
distinct. -/
structure Header where
  ZMQ_HWM : Int
  ZMQ_SWAP : Int
  ZMQ_AFFINITY : Int
  ZMQ_IDENTITY : Int
  ZMQ_SUBSCRIBE : Int
  ZMQ_UNSUBSCRIBE : Int
  ZMQ_RATE : Int
  ZMQ_RECOVERY_IVL : Int
  ZMQ_MCAST_LOOP : Int
  ZMQ_SNDBUF : Int
  ZMQ_RCVBUF : Int
  ZMQ_RCVMORE : Int
  EINVAL : Int
  distinct : [ZMQ_HWM, ZMQ_SWAP, ZMQ_AFFINITY, ZMQ_IDENTITY, ZMQ_SUBSCRIBE, ZMQ_UNSUBSCRIBE,
    ZMQ_RATE, ZMQ_RECOVERY_IVL, ZMQ_MCAST_LOOP, ZMQ_SNDBUF, ZMQ_RCVBUF, ZMQ_RCVMORE].Nodup

/-- The identifiers `Lzmq_setsockopt` has a case for. -/
def Header.set_table (H : Header) : List Int :=
  [H.ZMQ_SWAP, H.ZMQ_RATE, H.ZMQ_RECOVERY_IVL, H.ZMQ_MCAST_LOOP, H.ZMQ_IDENTITY,
    H.ZMQ_SUBSCRIBE, H.ZMQ_UNSUBSCRIBE, H.ZMQ_HWM, H.ZMQ_AFFINITY, H.ZMQ_SNDBUF, H.ZMQ_RCVBUF]

/-- The identifiers whose native encoding is a 64-bit integer and that can be both
set and read. -/
def Header.int_table (H : Header) : List Int :=
  [H.ZMQ_SWAP, H.ZMQ_RATE, H.ZMQ_RECOVERY_IVL, H.ZMQ_MCAST_LOOP,
    H.ZMQ_HWM, H.ZMQ_AFFINITY, H.ZMQ_SNDBUF, H.ZMQ_RCVBUF]

/-! ## The native engine -/

/-- The `zmq_msg_t *` arguments the binding passes to the native layer. -/
inductive MsgPtr
  /-- The `&msg` of the local `zmq_msg_t msg` of `Lzmq_send` and `Lzmq_recv`. -/
  | transient
  /-- The `msg` of a Message userdata: the address of its `zmq_msg_t`. -/
  | udata (addr : Nat)
  /-- The `&msg` of `Lzmq_recv_raw`, where `msg` is itself the `zmq_msg_t *` of the
  Message userdata at `addr`: the address of the pointer variable, not of a frame. -/
  | of_ptr (addr : Nat)
deriving DecidableEq, Repr

/-- The native calls of the binding with their arguments, as recorded in the trace. -/
inductive Call
  | zmq_init (io_threads : Int)
  | zmq_term (context : Nat)
  | zmq_socket (context : Nat) (type : Int)
  | zmq_close (s : Nat)
  | zmq_setsockopt (s : Nat) (option : Int) (optval : Bytes)
  | zmq_getsockopt (s : Nat) (option : Int) (optvallen : Nat)
  | zmq_bind (s : Nat) (addr : Bytes)
  | zmq_connect (s : Nat) (addr : Bytes)
  | zmq_msg_init (msg : MsgPtr)
  | zmq_msg_init_size (msg : MsgPtr) (size : Nat)
  | zmq_msg_close (msg : MsgPtr)
  | zmq_send (s : Nat) (msg : MsgPtr) (content : Option Bytes) (flags : Int)
  | zmq_recv (s : Nat) (msg : MsgPtr) (flags : Int)
  | zmq_errno
  | zmq_strerror (errnum : Int)
deriving DecidableEq

/-- Outcome of a native call that returns a status. -/
structure Out (E : Type) where
  rc : Int
  eng : E
  errno : Int

/-- Outcome of a native call that returns a handle (0 is `NULL`). -/
structure PtrOut (E : Type) where
  ptr : Nat
  eng : E
  errno : Int

/-- Outcome of `zmq_getsockopt`: the bytes written to the start of the option
buffer and the length stored in `*optvallen`. -/
structure GetOut (E : Type) where
  rc : Int
  eng : E
  errno : Int
  optval : Bytes
  optvallen : Nat

/-- Outcome of `zmq_recv`: on success, the content of the frame it produced. -/
structure RecvOut (E : Type) where
  rc : Int
  eng : E
  errno : Int
  data : Bytes

/-- The native messaging engine: an arbitrary behaviour for each native call, as a
function of the engine state, the current `errno` and the call's arguments. -/
structure Zmq (E : Type) where
  zmq_strerror : Int → Bytes
  zmq_init : E → Int → Int → PtrOut E
  zmq_term : E → Int → Nat → Out E
  zmq_socket : E → Int → Nat → Int → PtrOut E
  zmq_close : E → Int → Nat → Out E
  zmq_setsockopt : E → Int → Nat → Int → Bytes → Out E
  zmq_getsockopt : E → Int → Nat → Int → Nat → GetOut E
  zmq_bind : E → Int → Nat → Bytes → Out E
  zmq_connect : E → Int → Nat → Bytes → Out E
  zmq_msg_init : E → Int → MsgPtr → Out E
  zmq_msg_init_size : E → Int → MsgPtr → Nat → Out E
  zmq_msg_close : E → Int → MsgPtr → Out E
  zmq_send : E → Int → Nat → MsgPtr → Option Bytes → Int → Out E
  zmq_recv : E → Int → Nat → MsgPtr → Int → RecvOut E

/-- Everything a call of the binding can read or change. -/
structure State (E : Type) where
  /-- State of the native engine. -/
  eng : E
  /-- The C `errno` of the calling thread. -/
  errno : Int
  /-- The `ptr` field of the `zmq_ptr` userdata at each address (0 is `NULL`). -/
  ptr : Nat → Nat
  /-- The content of each initialised native frame (`zmq_msg_size` bytes at
  `zmq_msg_data`), `none` where no frame is initialised. -/
  frame : MsgPtr → Option Bytes
  /-- Address of the next userdata `lua_newuserdata` creates. -/
  next : Nat
  /-- The native calls made so far, oldest first. -/
  trace : List Call

variable {E : Type}

/-- Record a native call and the engine state and `errno` it left. -/
def State.after (st : State E) (c : Call) (eng : E) (errno : Int) : State E :=
  { st with eng := eng, errno := errno, trace := st.trace ++ [c] }

def call_zmq_init (Z : Zmq E) (st : State E) (io_threads : Int) : Nat × State E :=
  let o := Z.zmq_init st.eng st.errno io_threads
  (o.ptr, st.after (.zmq_init io_threads) o.eng o.errno)

def call_zmq_term (Z : Zmq E) (st : State E) (context : Nat) : Int × State E :=
  let o := Z.zmq_term st.eng st.errno context
  (o.rc, st.after (.zmq_term context) o.eng o.errno)

def call_zmq_socket (Z : Zmq E) (st : State E) (context : Nat) (type : Int) : Nat × State E :=
  let o := Z.zmq_socket st.eng st.errno context type
  (o.ptr, st.after (.zmq_socket context type) o.eng o.errno)

def call_zmq_close (Z : Zmq E) (st : State E) (s : Nat) : Int × State E :=
  let o := Z.zmq_close st.eng st.errno s
  (o.rc, st.after (.zmq_close s) o.eng o.errno)

def call_zmq_setsockopt (Z : Zmq E) (st : State E) (s : Nat) (option : Int) (optval : Bytes) :
    Int × State E :=
  let o := Z.zmq_setsockopt st.eng st.errno s option optval
  (o.rc, st.after (.zmq_setsockopt s option optval) o.eng o.errno)

/-- The native `zmq_getsockopt` on an option buffer holding `buf`: returns the
status and the buffer after the call. -/
def call_zmq_getsockopt (Z : Zmq E) (st : State E) (s : Nat) (option : Int) (buf : Bytes) :
    Int × Bytes × State E :=
  let o := Z.zmq_getsockopt st.eng st.errno s option buf.length
  (o.rc, writeBuf buf o.optval, st.after (.zmq_getsockopt s option buf.length) o.eng o.errno)

def call_zmq_bind (Z : Zmq E) (st : State E) (s : Nat) (addr : Bytes) : Int × State E :=
  let o := Z.zmq_bind st.eng st.errno s addr
  (o.rc, st.after (.zmq_bind s addr) o.eng o.errno)

def call_zmq_connect (Z : Zmq E) (st : State E) (s : Nat) (addr : Bytes) : Int × State E :=
  let o := Z.zmq_connect st.eng st.errno s addr
  (o.rc, st.after (.zmq_connect s addr) o.eng o.errno)

/-- On success `zmq_msg_init` leaves an empty frame at `msg`. -/
def call_zmq_msg_init (Z : Zmq E) (st : State E) (msg : MsgPtr) : Int × State E :=
  let o := Z.zmq_msg_init st.eng st.errno msg
  let st1 := st.after (.zmq_msg_init msg) o.eng o.errno
  (o.rc, if o.rc = 0 then { st1 with frame := Function.update st1.frame msg (some []) } else st1)

/-- On success `zmq_msg_init_size` leaves a frame of `size` bytes at `msg`. -/
def call_zmq_msg_init_size (Z : Zmq E) (st : State E) (msg : MsgPtr) (size : Nat) :
    Int × State E :=
  let o := Z.zmq_msg_init_size st.eng st.errno msg size
  let st1 := st.after (.zmq_msg_init_size msg size) o.eng o.errno
  (o.rc, if o.rc = 0 then
    { st1 with frame := Function.update st1.frame msg (some (List.replicate size 0)) } else st1)

/-- On success `zmq_msg_close` releases the frame at `msg`. -/
def call_zmq_msg_close (Z : Zmq E) (st : State E) (msg : MsgPtr) : Int × State E :=
  let o := Z.zmq_msg_close st.eng st.errno msg
  let st1 := st.after (.zmq_msg_close msg) o.eng o.errno
  (o.rc, if o.rc = 0 then { st1 with frame := Function.update st1.frame msg none } else st1)

/-- The native send receives the frame at `msg` with its current content; on
success the frame is left empty. -/
def call_zmq_send (Z : Zmq E) (st : State E) (s : Nat) (msg : MsgPtr) (flags : Int) :
    Int × State E :=
  let o := Z.zmq_send st.eng st.errno s msg (st.frame msg) flags
  let st1 := st.after (.zmq_send s msg (st.frame msg) flags) o.eng o.errno
  (o.rc, if o.rc = 0 then { st1 with frame := Function.update st1.frame msg (some []) } else st1)

/-- On success the native receive stores the frame it produced at `msg`. -/
def call_zmq_recv (Z : Zmq E) (st : State E) (s : Nat) (msg : MsgPtr) (flags : Int) :
    Int × State E :=
  let o := Z.zmq_recv st.eng st.errno s msg flags
  let st1 := st.after (.zmq_recv s msg flags) o.eng o.errno
  (o.rc, if o.rc = 0 then { st1 with frame := Function.update st1.frame msg (some o.data) } else st1)

/-- The bytes `zmq_msg_data (msg)` points to, `zmq_msg_size (msg)` of them. -/
def msg_content (st : State E) (msg : MsgPtr) : Bytes := (st.frame msg).getD []

/-- The statement `memcpy (zmq_msg_data (msg), data, size)` with `size` the length
of `data`. -/
def memcpy_msg_data (st : State E) (msg : MsgPtr) (data : Bytes) : State E :=
  { st with frame := Function.update st.frame msg (some (writeBuf (msg_content st msg) data)) }

/-- The macro `zmq_return_error ()`: fetch `zmq_strerror (zmq_errno ())`, push nil
and the string, return 2. `zmq_errno ()` is the value of `errno` for the calling
thread. -/
def zmq_return_error (Z : Zmq E) (stack : List LuaValue) (st : State E) :
    List LuaValue × State E :=
  let errnum := st.errno
  let error := Z.zmq_strerror errnum
  (ret (stack ++ [.nil, .string (cstr error)]) 2,
    { st with trace := st.trace ++ [.zmq_errno, .zmq_strerror errnum] })

/-! ## The C functions of `zmq.c` -/

def Lzmq_init (Z : Zmq E) (L : Lua) (args : List LuaValue) (st : State E) :
    Except LuaError (List LuaValue × State E) :=
  match luaL_checkint L args 1 with
  | .error e => .error e
  | .ok io_threads =>
    let ctx := st.next
    let stack := args ++ [.userdata none ctx]
    let st0 := { st with next := st.next + 1 }
    let (p, st1) := call_zmq_init Z st0 io_threads
    let st2 := { st1 with ptr := Function.update st1.ptr ctx p }
    if p = 0 then
      .ok (zmq_return_error Z stack st2)
    else
      .ok (ret (set_top_metatable stack .MT_ZMQ_CONTEXT) 1, st2)

def Lzmq_term (Z : Zmq E) (args : List LuaValue) (st : State E) :
    Except LuaError (List LuaValue × State E) :=
  match luaL_checkudata args 1 .MT_ZMQ_CONTEXT with
  | .error e => .error e
  | .ok ctx =>
    if st.ptr ctx ≠ 0 then
      let (rc, st1) := call_zmq_term Z st (st.ptr ctx)
      if rc = 0 then
        .ok (ret (args ++ [.boolean true]) 1, { st1 with ptr := Function.update st1.ptr ctx 0 })
      else
        .ok (zmq_return_error Z args st1)
    else
      .ok (ret (args ++ [.boolean true]) 1, st)

def Lzmq_socket (Z : Zmq E) (L : Lua) (args : List LuaValue) (st : State E) :
    Except LuaError (List LuaValue × State E) :=
  match luaL_checkudata args 1 .MT_ZMQ_CONTEXT with
  | .error e => .error e
  | .ok ctx =>
    match luaL_checkint L args 2 with
    | .error e => .error e
    | .ok type =>
      let s := st.next
      let stack := args ++ [.userdata none s]
      let st0 := { st with next := st.next + 1 }
      let (p, st1) := call_zmq_socket Z st0 (st0.ptr ctx) type
      let st2 := { st1 with ptr := Function.update st1.ptr s p }
      if p = 0 then
        .ok (zmq_return_error Z stack st2)
      else
        .ok (ret (set_top_metatable stack .MT_ZMQ_SOCKET) 1, st2)

def Lzmq_close (Z : Zmq E) (args : List LuaValue) (st : State E) :
    Except LuaError (List LuaValue × State E) :=
  match luaL_checkudata args 1 .MT_ZMQ_SOCKET with
  | .error e => .error e
  | .ok s =>
    if st.ptr s ≠ 0 then
      let (rc, st1) := call_zmq_close Z st (st.ptr s)
      if rc = 0 then
        .ok (ret (args ++ [.boolean true]) 1, { st1 with ptr := Function.update st1.ptr s 0 })
      else
        .ok (zmq_return_error Z args st1)
    else
      .ok (ret (args ++ [.boolean true]) 1, st)

/-- The tail of `Lzmq_setsockopt` and `Lzmq_getsockopt` after the `switch`. -/
def return_rc (Z : Zmq E) (stack : List LuaValue) (r : Int × State E) :
    List LuaValue × State E :=
  if r.1 ≠ 0 then
    zmq_return_error Z stack r.2
  else
    (ret (stack ++ [.boolean true]) 1, r.2)

def Lzmq_setsockopt (H : Header) (Z : Zmq E) (L : Lua) (args : List LuaValue) (st : State E) :
    Except LuaError (List LuaValue × State E) :=
  match luaL_checkudata args 1 .MT_ZMQ_SOCKET with
  | .error e => .error e
  | .ok s =>
    match luaL_checkint L args 2 with
    | .error e => .error e
    | .ok option =>
      if option = H.ZMQ_SWAP ∨ option = H.ZMQ_RATE ∨ option = H.ZMQ_RECOVERY_IVL
          ∨ option = H.ZMQ_MCAST_LOOP then
        match luaL_checklong L args 3 with
        | .error e => .error e
        | .ok optval =>
          .ok (return_rc Z args (call_zmq_setsockopt Z st (st.ptr s) option (bytes64 optval)))
      else if option = H.ZMQ_IDENTITY ∨ option = H.ZMQ_SUBSCRIBE
          ∨ option = H.ZMQ_UNSUBSCRIBE then
        match luaL_checklstring L args 3 with
        | .error e => .error e
        | .ok optval =>
          .ok (return_rc Z args (call_zmq_setsockopt Z st (st.ptr s) option optval))
      else if option = H.ZMQ_HWM ∨ option = H.ZMQ_AFFINITY ∨ option = H.ZMQ_SNDBUF
          ∨ option = H.ZMQ_RCVBUF then
        match luaL_checklong L args 3 with
        | .error e => .error e
        | .ok optval =>
          .ok (return_rc Z args (call_zmq_setsockopt Z st (st.ptr s) option (bytes64 optval)))
      else
        .ok (return_rc Z args (-1, { st with errno := H.EINVAL }))

/-- The cast `(lua_Integer) optval` of the eight bytes of an `int64_t` or
`uint64_t` option buffer. -/
def optval_integer (buf : Bytes) : Int := wrap64 (le_value (buf.take 8))

/-- The buffer `char id[256]` of `Lzmq_getsockopt` after `id[255] = 0`. -/
def identity_buffer (buf : Bytes) : Bytes := buf.set 255 0

/-- The 64-bit `optval` locals are not initialised in C: the model reads the bytes
the engine did not write as zero. The buffer `id` is zeroed by `memset`. -/
def Lzmq_getsockopt (H : Header) (Z : Zmq E) (L : Lua) (args : List LuaValue) (st : State E) :
    Except LuaError (List LuaValue × State E) :=
  match luaL_checkudata args 1 .MT_ZMQ_SOCKET with
  | .error e => .error e
  | .ok s =>
    match luaL_checkint L args 2 with
    | .error e => .error e
    | .ok option =>
      if option = H.ZMQ_SWAP ∨ option = H.ZMQ_RATE ∨ option = H.ZMQ_RECOVERY_IVL
          ∨ option = H.ZMQ_MCAST_LOOP ∨ option = H.ZMQ_RCVMORE then
        let (rc, optval, st1) := call_zmq_getsockopt Z st (st.ptr s) option (List.replicate 8 0)
        if rc = 0 then
          .ok (ret (args ++ [.number (optval_integer optval)]) 1, st1)
        else
          .ok (return_rc Z args (rc, st1))
      else if option = H.ZMQ_IDENTITY then
        let (rc, id, st1) := call_zmq_getsockopt Z st (st.ptr s) option (List.replicate 256 0)
        let id := identity_buffer id
        if rc = 0 then
          .ok (ret (args ++ [.string (cstr id)]) 1, st1)
        else
          .ok (return_rc Z args (rc, st1))
      else if option = H.ZMQ_HWM ∨ option = H.ZMQ_AFFINITY ∨ option = H.ZMQ_SNDBUF
          ∨ option = H.ZMQ_RCVBUF then
        let (rc, optval, st1) := call_zmq_getsockopt Z st (st.ptr s) option (List.replicate 8 0)
        if rc = 0 then
          .ok (ret (args ++ [.number (optval_integer optval)]) 1, st1)
        else
          .ok (return_rc Z args (rc, st1))
      else
        .ok (return_rc Z args (-1, { st with errno := H.EINVAL }))

def Lzmq_bind (Z : Zmq E) (L : Lua) (args : List LuaValue) (st : State E) :
    Except LuaError (List LuaValue × State E) :=
  match luaL_checkudata args 1 .MT_ZMQ_SOCKET with
  | .error e => .error e
  | .ok s =>
    match luaL_checkstring L args 2 with
    | .error e => .error e
    | .ok addr =>
      let (rc, st1) := call_zmq_bind Z st (st.ptr s) addr
      if rc ≠ 0 then
        .ok (zmq_return_error Z args st1)
      else
        .ok (ret (args ++ [.boolean true]) 1, st1)

def Lzmq_connect (Z : Zmq E) (L : Lua) (args : List LuaValue) (st : State E) :
    Except LuaError (List LuaValue × State E) :=
  match luaL_checkudata args 1 .MT_ZMQ_SOCKET with
  | .error e => .error e
  | .ok s =>
    match luaL_checkstring L args 2 with
    | .error e => .error e
    | .ok addr =>
      let (rc, st1) := call_zmq_connect Z st (st.ptr s) addr
      if rc ≠ 0 then
        .ok (zmq_return_error Z args st1)
      else
        .ok (ret (args ++ [.boolean true]) 1, st1)

/-- The body of `Lzmq_send` once its arguments are read. -/
def send_body (Z : Zmq E) (args : List LuaValue) (st : State E) (s : Nat) (data : Bytes)
    (flags : Int) : List LuaValue × State E :=
  let (rc0, st1) := call_zmq_msg_init_size Z st .transient data.length
  if rc0 ≠ 0 then
    zmq_return_error Z args st1
  else
    let st2 := memcpy_msg_data st1 .transient data
    let (rc, st3) := call_zmq_send Z st2 (st2.ptr s) .transient flags
    let (rcc, st4) := call_zmq_msg_close Z st3 .transient
    if rcc ≠ 0 then
      zmq_return_error Z args st4
    else if rc ≠ 0 then
      zmq_return_error Z args st4
    else
      (ret (args ++ [.boolean true]) 1, st4)

def Lzmq_send (Z : Zmq E) (L : Lua) (args : List LuaValue) (st : State E) :
    Except LuaError (List LuaValue × State E) :=
  match luaL_checkudata args 1 .MT_ZMQ_SOCKET with
  | .error e => .error e
  | .ok s =>
    match luaL_checklstring L args 2 with
    | .error e => .error e
    | .ok data =>
      match luaL_optint L args 3 0 with
      | .error e => .error e
      | .ok flags => .ok (send_body Z args st s data flags)

def Lzmq_send_raw (Z : Zmq E) (L : Lua) (args : List LuaValue) (st : State E) :
    Except LuaError (List LuaValue × State E) :=
  match luaL_checkudata args 1 .MT_ZMQ_SOCKET with
  | .error e => .error e
  | .ok s =>
    match luaL_checkudata args 2 .MT_ZMQ_MESSAGE with
    | .error e => .error e
    | .ok msg =>
      match luaL_optint L args 3 0 with
      | .error e => .error e
      | .ok flags =>
        let (rc, st1) := call_zmq_send Z st (st.ptr s) (.udata msg) flags
        if rc ≠ 0 then
          .ok (zmq_return_error Z args st1)
        else
          .ok (ret (args ++ [.boolean true]) 1, st1)

/-- The body of `Lzmq_recv` once its arguments are read. -/
def recv_body (Z : Zmq E) (args : List LuaValue) (st : State E) (s : Nat) (flags : Int) :
    List LuaValue × State E :=
  let (rc0, st1) := call_zmq_msg_init Z st .transient
  if rc0 ≠ 0 then
    zmq_return_error Z args st1
  else
    let (rc, st2) := call_zmq_recv Z st1 (st1.ptr s) .transient flags
    if rc ≠ 0 then
      let (_, st3) := call_zmq_msg_close Z st2 .transient
      zmq_return_error Z args st3
    else
      let stack := args ++ [.string (msg_content st2 .transient)]
      let (rcc, st3) := call_zmq_msg_close Z st2 .transient
      if rcc ≠ 0 then
        zmq_return_error Z stack st3
      else
        (ret stack 1, st3)

def Lzmq_recv (Z : Zmq E) (L : Lua) (args : List LuaValue) (st : State E) :
    Except LuaError (List LuaValue × State E) :=
  match luaL_checkudata args 1 .MT_ZMQ_SOCKET with
  | .error e => .error e
  | .ok s =>
    match luaL_optint L args 2 0 with
    | .error e => .error e
    | .ok flags => .ok (recv_body Z args st s flags)

def Lzmq_recv_raw (Z : Zmq E) (L : Lua) (args : List LuaValue) (st : State E) :
    Except LuaError (List LuaValue × State E) :=
  match luaL_checkudata args 1 .MT_ZMQ_SOCKET with
  | .error e => .error e
  | .ok s =>
    match luaL_checkudata args 2 .MT_ZMQ_MESSAGE with
    | .error e => .error e
    | .ok msg =>
      match luaL_optint L args 3 0 with
      | .error e => .error e
      | .ok flags =>
        let (rc, st1) := call_zmq_recv Z st (st.ptr s) (.udata msg) flags
        if rc ≠ 0 then
          let (_, st2) := call_zmq_msg_close Z st1 (.of_ptr msg)
          .ok (zmq_return_error Z args st2)
        else
          .ok (ret args 1, st1)

def Lzmq_Message (Z : Zmq E) (args : List LuaValue) (st : State E) :
    Except LuaError (List LuaValue × State E) :=
  let msg := st.next
  let stack := args ++ [.userdata none msg]
  let st0 := { st with next := st.next + 1 }
  let (_, st1) := call_zmq_msg_init Z st0 (.udata msg)
  .ok (ret (set_top_metatable stack .MT_ZMQ_MESSAGE) 1, st1)

def Lzmq_msg_data (args : List LuaValue) (st : State E) :
    Except LuaError (List LuaValue × State E) :=
  match luaL_checkudata args 1 .MT_ZMQ_MESSAGE with
  | .error e => .error e
  | .ok msg => .ok (ret (args ++ [.string (msg_content st (.udata msg))]) 1, st)

def Lzmq_msg_gc (Z : Zmq E) (args : List LuaValue) (st : State E) :
    Except LuaError (List LuaValue × State E) :=
  match luaL_checkudata args 1 .MT_ZMQ_MESSAGE with
  | .error e => .error e
  | .ok msg =>
    let (_, st1) := call_zmq_msg_close Z st (.udata msg)
    .ok (ret args 0, st1)

/-! ## Sequences of calls -/

/-- The functions `luaopen_zmq` registers for the module, contexts, sockets and
messages (`__gc` is `term`, `close` and `msg_gc` respectively). -/
inductive Fn
  | init | term | socket | close | setopt | getopt | bind | connect
  | send | send_raw | recv | recv_raw | Message | data | msg_gc
deriving DecidableEq, Repr

/-- One call of a registered function. -/
def call (H : Header) (Z : Zmq E) (L : Lua) (f : Fn) (args : List LuaValue) (st : State E) :
    Except LuaError (List LuaValue × State E) :=
  match f with
  | .init => Lzmq_init Z L args st
  | .term => Lzmq_term Z args st
  | .socket => Lzmq_socket Z L args st
  | .close => Lzmq_close Z args st
  | .setopt => Lzmq_setsockopt H Z L args st
  | .getopt => Lzmq_getsockopt H Z L args st
  | .bind => Lzmq_bind Z L args st
  | .connect => Lzmq_connect Z L args st
  | .send => Lzmq_send Z L args st
  | .send_raw => Lzmq_send_raw Z L args st
  | .recv => Lzmq_recv Z L args st
  | .recv_raw => Lzmq_recv_raw Z L args st
  | .Message => Lzmq_Message Z args st
  | .data => Lzmq_msg_data args st
  | .msg_gc => Lzmq_msg_gc Z args st

/-- The state a call leaves; a call that raises a Lua error has made no change. -/
def exec (H : Header) (Z : Zmq E) (L : Lua) (st : State E) (c : Fn × List LuaValue) : State E :=
  match call H Z L c.1 c.2 st with
  | .ok r => r.2
  | .error _ => st

/-- The state after a sequence of calls. -/
def run (H : Header) (Z : Zmq E) (L : Lua) (cs : List (Fn × List LuaValue)) (st : State E) :
    State E :=
  cs.foldl (exec H Z L) st

/-! ## Concrete instances, used to evaluate the code -/

/-- The values of `zmq.h` of the 2.0 series and of the Linux `errno.h`. -/
def zmq_h : Header where
  ZMQ_HWM := 1
  ZMQ_SWAP := 3
  ZMQ_AFFINITY := 4
  ZMQ_IDENTITY := 5
  ZMQ_SUBSCRIBE := 6
  ZMQ_UNSUBSCRIBE := 7
  ZMQ_RATE := 8
  ZMQ_RECOVERY_IVL := 9
  ZMQ_MCAST_LOOP := 10
  ZMQ_SNDBUF := 11
  ZMQ_RCVBUF := 12
  ZMQ_RCVMORE := 13
  EINVAL := 22
  distinct := by decide

/-- A host runtime without coercions between strings and numbers. -/
def plain_lua : Lua where
  cvt2num := fun _ => none
  tostring := fun _ => []

/-- State of the simulated engine: the outcomes (status, `errno`) scripted for the
next native calls, the stored socket options and the queue of frames in flight. -/
structure Sim where
  script : List (Int × Int)
  opts : List (Nat × Int × Bytes)
  queue : List Bytes

/-- The outcome of the next native call: the head of the script, or success with
`errno` left alone when the script is exhausted. -/
def Sim.step (e : Sim) (errno : Int) : Out Sim :=
  match e.script with
  | [] => ⟨0, e, errno⟩
  | (rc, en) :: rest => ⟨rc, { e with script := rest }, en⟩

/-- The option buffer stored for socket `s` and identifier `option`. -/
def Sim.lookup (e : Sim) (s : Nat) (option : Int) : Bytes :=
  match e.opts.find? (fun x => x.1 = s ∧ x.2.1 = option) with
  | some x => x.2.2
  | none => []

/-- A simulated engine: it follows its script for the status of each call, stores
the option buffers it is given and hands them back, and delivers the frames it
is sent in order and unchanged. Its error descriptions are the names EINVAL
(22), EAGAIN (11) and EFAULT (14), and a question mark otherwise. -/
def sim : Zmq Sim where
  zmq_strerror := fun n => if n = 22 then [69, 73, 78, 86, 65, 76] else
    if n = 11 then [69, 65, 71, 65, 73, 78] else
    if n = 14 then [69, 70, 65, 85, 76, 84] else [63]
  zmq_init := fun e errno _ =>
    let o := e.step errno
    ⟨if o.rc = 0 then 4096 else 0, o.eng, o.errno⟩
  zmq_term := fun e errno _ => e.step errno
  zmq_socket := fun e errno _ _ =>
    let o := e.step errno
    ⟨if o.rc = 0 then 8192 else 0, o.eng, o.errno⟩
  zmq_close := fun e errno _ => e.step errno
  zmq_setsockopt := fun e errno s option optval =>
    let o := e.step errno
    if o.rc = 0 then ⟨0, { o.eng with opts := (s, option, optval) :: o.eng.opts }, o.errno⟩ else o
  zmq_getsockopt := fun e errno s option optvallen =>
    let o := e.step errno
    let v := (e.lookup s option).take optvallen
    ⟨o.rc, o.eng, o.errno, if o.rc = 0 then v else [], if o.rc = 0 then v.length else optvallen⟩
  zmq_bind := fun e errno _ _ => e.step errno
  zmq_connect := fun e errno _ _ => e.step errno
  zmq_msg_init := fun e errno _ => e.step errno
  zmq_msg_init_size := fun e errno _ _ => e.step errno
  zmq_msg_close := fun e errno _ => e.step errno
  zmq_send := fun e errno _ _ content _ =>
    let o := e.step errno
    if o.rc = 0 then ⟨0, { o.eng with queue := o.eng.queue ++ [content.getD []] }, o.errno⟩ else o
  zmq_recv := fun e errno _ _ _ =>
    let o := e.step errno
    if o.rc = 0 then
      match o.eng.queue with
      | [] => ⟨-1, o.eng, 11, []⟩
      | m :: rest => ⟨0, { o.eng with queue := rest }, o.errno, m⟩
    else ⟨o.rc, o.eng, o.errno, []⟩

/-- An initial state: a context userdata at address 0 and a socket userdata at
address 1, both open, no frame, nothing called yet. -/
def init_state (e : Sim) : State Sim where
  eng := e
  errno := 0
  ptr := fun a => if a = 0 then 4096 else if a = 1 then 8192 else 0
  frame := fun _ => none
  next := 2
  trace := []

/-- The context userdata of `init_state`. -/
def ctx0 : LuaValue := .userdata (some .MT_ZMQ_CONTEXT) 0

/-- The socket userdata of `init_state`. -/
def sock1 : LuaValue := .userdata (some .MT_ZMQ_SOCKET) 1

/-- The results of a call, `none` when it raised a Lua error. -/
def results (r : Except LuaError (List LuaValue × State E)) : Option (List LuaValue) :=
  match r with
  | .ok x => some x.1
  | .error _ => none

/-- The trace after a call, `none` when it raised a Lua error. -/
def trace_of (r : Except LuaError (List LuaValue × State E)) : Option (List Call) :=
  match r with
  | .ok x => some x.2.trace
  | .error _ => none

/-! ## Predicates and abbreviations used in the statements -/

/-- A handle userdata that has been created and whose `ptr` is `NULL`. -/
def Released (st : State E) (h : Nat) : Prop := st.ptr h = 0 ∧ h < st.next

/-- The handle userdata are the same in both states: same `ptr` fields, same
allocation mark. -/
def SameHandles (st st' : State E) : Prop := st'.ptr = st.ptr ∧ st'.next = st.next

/-- The error pair built from a value of `errno`. -/
def error_pair (Z : Zmq E) (errnum : Int) : List LuaValue :=
  [.nil, .string (cstr (Z.zmq_strerror errnum))]

/-- The two trace entries of `zmq_return_error`. -/
def error_fetch (errnum : Int) : List Call := [.zmq_errno, .zmq_strerror errnum]

/-- The native calls that release a frame. -/
def is_msg_close (c : Call) : Bool :=
  match c with
  | .zmq_msg_close _ => true
  | _ => false

/-- The first case group of both switches. -/
def Header.signed_group (H : Header) (x : Int) : Prop :=
  x = H.ZMQ_SWAP ∨ x = H.ZMQ_RATE ∨ x = H.ZMQ_RECOVERY_IVL ∨ x = H.ZMQ_MCAST_LOOP

/-- The case group of the unsigned options. -/
def Header.unsigned_group (H : Header) (x : Int) : Prop :=
  x = H.ZMQ_HWM ∨ x = H.ZMQ_AFFINITY ∨ x = H.ZMQ_SNDBUF ∨ x = H.ZMQ_RCVBUF

/-- The engine, as the state `st` holds it, stores the option buffer that a
`zmq_setsockopt` hands it, and a `zmq_getsockopt` that follows for the same
socket and identifier, into a buffer that is large enough, hands the same bytes
back. -/
def StoresOptions (Z : Zmq E) (st : State E) : Prop :=
  ∀ (s : Nat) (option : Int) (optval : Bytes),
    (Z.zmq_setsockopt st.eng st.errno s option optval).rc = 0 ∧
    ∀ n, optval.length ≤ n →
      (Z.zmq_getsockopt (Z.zmq_setsockopt st.eng st.errno s option optval).eng
        (Z.zmq_setsockopt st.eng st.errno s option optval).errno s option n).rc = 0 ∧
      (Z.zmq_getsockopt (Z.zmq_setsockopt st.eng st.errno s option optval).eng
        (Z.zmq_setsockopt st.eng st.errno s option optval).errno s option n).optval = optval

/-- The Message userdata that `Lzmq_Message` creates in `init_state`. -/
def msg2 : LuaValue := .userdata (some .MT_ZMQ_MESSAGE) 2

/-- The initial state after one call of `zmq.Message ()`. -/
def message_state (e : Sim) : State Sim :=
  exec zmq_h sim plain_lua (init_state e) (.Message, [])

/-- The call returned nil and the description of `errnum`, and the native call `c`
is the last one made before `zmq_errno` and `zmq_strerror` fetched it. -/
def Reports (Z : Zmq E) (st : State E) (r : List LuaValue × State E) (c : Call)
    (errnum : Int) : Prop :=
  r.1 = [.nil, .string (cstr (Z.zmq_strerror errnum))] ∧
  ∃ before, r.2.trace = st.trace ++ before ++ [c, .zmq_errno, .zmq_strerror errnum]

/-! ## Basic facts -/

theorem ret_two (stack : List LuaValue) (a b : LuaValue) : ret (stack ++ [a, b]) 2 = [a, b] := by
  simp [ret]

theorem ret_one (stack : List LuaValue) (a : LuaValue) : ret (stack ++ [a]) 1 = [a] := by
  simp [ret]

/-! ## Unsupported option identifiers -/

/-- C1: for a socket argument and an option identifier outside the table of
`Lzmq_setsockopt`, the call returns nil and the description of `EINVAL`; the
only native calls it makes are `zmq_errno` and `zmq_strerror` (no
`zmq_setsockopt`), and the engine state, every handle and every frame are as
before. -/
theorem setsockopt_unsupported (H : Header) (Z : Zmq E) (L : Lua) (args : List LuaValue)
    (st : State E) (s : Nat) (option : Int)
    (hs : luaL_checkudata args 1 .MT_ZMQ_SOCKET = .ok s)
    (ho : luaL_checkint L args 2 = .ok option)
    (hno : option ∉ H.set_table) :
    ∃ st', Lzmq_setsockopt H Z L args st
        = .ok ([.nil, .string (cstr (Z.zmq_strerror H.EINVAL))], st')
      ∧ st'.trace = st.trace ++ [.zmq_errno, .zmq_strerror H.EINVAL]
      ∧ (∀ c ∈ st'.trace, ∀ p o v, c = Call.zmq_setsockopt p o v → c ∈ st.trace)
      ∧ st'.eng = st.eng ∧ st'.ptr = st.ptr ∧ st'.frame = st.frame ∧ st'.next = st.next := by
  simp only [Header.set_table, List.mem_cons, List.mem_singleton, List.not_mem_nil, or_false,
    not_or] at hno
  obtain ⟨h1, h2, h3, h4, h5, h6, h7, h8, h9, h10, h11⟩ := hno
  refine ⟨{ st with errno := H.EINVAL, trace := st.trace ++ [.zmq_errno, .zmq_strerror H.EINVAL] },
    ?_, rfl, ?_, rfl, rfl, rfl, rfl⟩
  · simp [Lzmq_setsockopt, hs, ho, h1, h2, h3, h4, h5, h6, h7, h8, h9, h10, h11, return_rc,
      zmq_return_error, ret_two]
  · intro c hc p o v hcv
    subst hcv
    simpa using hc

/-- Witness for C1: identifier 2 (the retired `ZMQ_LWM`) on the socket of the
initial state. -/
theorem setsockopt_unsupported_witness :
    ∃ st', Lzmq_setsockopt zmq_h sim plain_lua [sock1, .number 2, .number 7]
        (init_state ⟨[], [], []⟩)
        = .ok ([.nil, .string (cstr (sim.zmq_strerror zmq_h.EINVAL))], st')
      ∧ st'.trace = (init_state ⟨[], [], []⟩).trace ++ [.zmq_errno, .zmq_strerror zmq_h.EINVAL]
      ∧ (∀ c ∈ st'.trace, ∀ p o v, c = Call.zmq_setsockopt p o v →
          c ∈ (init_state ⟨[], [], []⟩).trace)
      ∧ st'.eng = (init_state ⟨[], [], []⟩).eng ∧ st'.ptr = (init_state ⟨[], [], []⟩).ptr
      ∧ st'.frame = (init_state ⟨[], [], []⟩).frame
      ∧ st'.next = (init_state ⟨[], [], []⟩).next :=
  setsockopt_unsupported zmq_h sim plain_lua [sock1, .number 2, .number 7]
    (init_state ⟨[], [], []⟩) 1 2 rfl rfl (by decide)

/-! ## Idempotent release -/

theorem SameHandles.rfl (st : State E) : SameHandles st st := ⟨Eq.refl _, Eq.refl _⟩

theorem SameHandles.trans {a b c : State E} (h1 : SameHandles a b) (h2 : SameHandles b c) :
    SameHandles a c := ⟨h2.1.trans h1.1, h2.2.trans h1.2⟩

theorem same_return_error (Z : Zmq E) (stack : List LuaValue) (st : State E) :
    SameHandles st (zmq_return_error Z stack st).2 := ⟨Eq.refl _, Eq.refl _⟩

theorem same_return_rc (Z : Zmq E) (stack : List LuaValue) (r : Int × State E) :
    SameHandles r.2 (return_rc Z stack r).2 := by
  unfold return_rc
  split
  · exact same_return_error Z stack r.2
  · exact SameHandles.rfl _

theorem same_setsockopt (Z : Zmq E) (st : State E) (s : Nat) (o : Int) (v : Bytes) :
    SameHandles st (call_zmq_setsockopt Z st s o v).2 := ⟨Eq.refl _, Eq.refl _⟩

theorem same_getsockopt (Z : Zmq E) (st : State E) (s : Nat) (o : Int) (b : Bytes) :
    SameHandles st (call_zmq_getsockopt Z st s o b).2.2 := ⟨Eq.refl _, Eq.refl _⟩

theorem same_bind (Z : Zmq E) (st : State E) (s : Nat) (a : Bytes) :
    SameHandles st (call_zmq_bind Z st s a).2 := ⟨Eq.refl _, Eq.refl _⟩

theorem same_connect (Z : Zmq E) (st : State E) (s : Nat) (a : Bytes) :
    SameHandles st (call_zmq_connect Z st s a).2 := ⟨Eq.refl _, Eq.refl _⟩

theorem same_msg_init (Z : Zmq E) (st : State E) (m : MsgPtr) :
    SameHandles st (call_zmq_msg_init Z st m).2 := by
  unfold call_zmq_msg_init
  dsimp only
  split <;> exact ⟨Eq.refl _, Eq.refl _⟩

theorem same_msg_init_size (Z : Zmq E) (st : State E) (m : MsgPtr) (n : Nat) :
    SameHandles st (call_zmq_msg_init_size Z st m n).2 := by
  unfold call_zmq_msg_init_size
  dsimp only
  split <;> exact ⟨Eq.refl _, Eq.refl _⟩

theorem same_msg_close (Z : Zmq E) (st : State E) (m : MsgPtr) :
    SameHandles st (call_zmq_msg_close Z st m).2 := by
  unfold call_zmq_msg_close
  dsimp only
  split <;> exact ⟨Eq.refl _, Eq.refl _⟩

theorem same_send (Z : Zmq E) (st : State E) (s : Nat) (m : MsgPtr) (f : Int) :
    SameHandles st (call_zmq_send Z st s m f).2 := by
  unfold call_zmq_send
  dsimp only
  split <;> exact ⟨Eq.refl _, Eq.refl _⟩

theorem same_recv (Z : Zmq E) (st : State E) (s : Nat) (m : MsgPtr) (f : Int) :
    SameHandles st (call_zmq_recv Z st s m f).2 := by
  unfold call_zmq_recv
  dsimp only
  split <;> exact ⟨Eq.refl _, Eq.refl _⟩

theorem same_memcpy (st : State E) (m : MsgPtr) (d : Bytes) :
    SameHandles st (memcpy_msg_data st m d) := ⟨Eq.refl _, Eq.refl _⟩

theorem same_setopt (H : Header) (Z : Zmq E) (L : Lua) (args : List LuaValue) (st : State E)
    (r : List LuaValue × State E) (h : Lzmq_setsockopt H Z L args st = .ok r) :
    SameHandles st r.2 := by
  unfold Lzmq_setsockopt at h
  split at h
  · cases h
  split at h
  · cases h
  split at h
  · split at h
    · cases h
    · cases h
      exact (same_setsockopt Z st _ _ _).trans (same_return_rc Z args _)
  split at h
  · split at h
    · cases h
    · cases h
      exact (same_setsockopt Z st _ _ _).trans (same_return_rc Z args _)
  split at h
  · split at h
    · cases h
    · cases h
      exact (same_setsockopt Z st _ _ _).trans (same_return_rc Z args _)
  · cases h
    exact SameHandles.trans ⟨Eq.refl _, Eq.refl _⟩ (same_return_rc Z args _)

theorem same_getopt (H : Header) (Z : Zmq E) (L : Lua) (args : List LuaValue) (st : State E)
    (r : List LuaValue × State E) (h : Lzmq_getsockopt H Z L args st = .ok r) :
    SameHandles st r.2 := by
  unfold Lzmq_getsockopt at h
  split at h
  · cases h
  split at h
  · cases h
  split at h
  · dsimp only at h
    split at h
    · cases h
      exact same_getsockopt Z st _ _ _
    · cases h
      exact (same_getsockopt Z st _ _ _).trans (same_return_rc Z args _)
  split at h
  · dsimp only at h
    split at h
    · cases h
      exact same_getsockopt Z st _ _ _
    · cases h
      exact (same_getsockopt Z st _ _ _).trans (same_return_rc Z args _)
  split at h
  · dsimp only at h
    split at h
    · cases h
      exact same_getsockopt Z st _ _ _
    · cases h
      exact (same_getsockopt Z st _ _ _).trans (same_return_rc Z args _)
  · cases h
    exact SameHandles.trans ⟨Eq.refl _, Eq.refl _⟩ (same_return_rc Z args _)

theorem same_Lbind (Z : Zmq E) (L : Lua) (args : List LuaValue) (st : State E)
    (r : List LuaValue × State E) (h : Lzmq_bind Z L args st = .ok r) :
    SameHandles st r.2 := by
  unfold Lzmq_bind at h
  split at h
  · cases h
  split at h
  · cases h
  dsimp only at h
  split at h
  · cases h
    exact (same_bind Z st _ _).trans (same_return_error Z args _)
  · cases h
    exact same_bind Z st _ _

theorem same_Lconnect (Z : Zmq E) (L : Lua) (args : List LuaValue) (st : State E)
    (r : List LuaValue × State E) (h : Lzmq_connect Z L args st = .ok r) :
    SameHandles st r.2 := by
  unfold Lzmq_connect at h
  split at h
  · cases h
  split at h
  · cases h
  dsimp only at h
  split at h
  · cases h
    exact (same_connect Z st _ _).trans (same_return_error Z args _)
  · cases h
    exact same_connect Z st _ _

theorem same_send_body (Z : Zmq E) (args : List LuaValue) (st : State E) (s : Nat) (data : Bytes)
    (flags : Int) : SameHandles st (send_body Z args st s data flags).2 := by
  unfold send_body
  dsimp only
  have h1 := same_msg_init_size Z st .transient data.length
  split
  · exact h1.trans (same_return_error Z args _)
  · have h4 : SameHandles st (call_zmq_msg_close Z (call_zmq_send Z
        (memcpy_msg_data (call_zmq_msg_init_size Z st .transient data.length).2 .transient data)
        ((memcpy_msg_data (call_zmq_msg_init_size Z st .transient data.length).2
          .transient data).ptr s) .transient flags).2 .transient).2 := by
      refine SameHandles.trans ?_ (same_msg_close Z _ _)
      refine SameHandles.trans ?_ (same_send Z _ _ _ _)
      exact h1.trans (same_memcpy _ _ _)
    split
    · exact h4.trans (same_return_error Z args _)
    · split
      · exact h4.trans (same_return_error Z args _)
      · exact h4

theorem same_recv_body (Z : Zmq E) (args : List LuaValue) (st : State E) (s : Nat)
    (flags : Int) : SameHandles st (recv_body Z args st s flags).2 := by
  unfold recv_body
  dsimp only
  have h1 := same_msg_init Z st .transient
  split
  · exact h1.trans (same_return_error Z args _)
  · have h3 : SameHandles st (call_zmq_msg_close Z (call_zmq_recv Z
        (call_zmq_msg_init Z st .transient).2 ((call_zmq_msg_init Z st .transient).2.ptr s)
        .transient flags).2 .transient).2 := by
      refine SameHandles.trans ?_ (same_msg_close Z _ _)
      exact h1.trans (same_recv Z _ _ _ _)
    split
    · exact h3.trans (same_return_error Z args _)
    · split
      · exact h3.trans (same_return_error Z _ _)
      · exact h3

theorem same_Lsend (Z : Zmq E) (L : Lua) (args : List LuaValue) (st : State E)
    (r : List LuaValue × State E) (h : Lzmq_send Z L args st = .ok r) :
    SameHandles st r.2 := by
  unfold Lzmq_send at h
  split at h
  · cases h
  split at h
  · cases h
  split at h
  · cases h
  cases h
  exact same_send_body Z args st _ _ _

theorem same_Lrecv (Z : Zmq E) (L : Lua) (args : List LuaValue) (st : State E)
    (r : List LuaValue × State E) (h : Lzmq_recv Z L args st = .ok r) :
    SameHandles st r.2 := by
  unfold Lzmq_recv at h
  split at h
  · cases h
  split at h
  · cases h
  cases h
  exact same_recv_body Z args st _ _

theorem same_Lsend_raw (Z : Zmq E) (L : Lua) (args : List LuaValue) (st : State E)
    (r : List LuaValue × State E) (h : Lzmq_send_raw Z L args st = .ok r) :
    SameHandles st r.2 := by
  unfold Lzmq_send_raw at h
  split at h
  · cases h
  split at h
  · cases h
  split at h
  · cases h
  dsimp only at h
  split at h
  · cases h
    exact (same_send Z st _ _ _).trans (same_return_error Z args _)
  · cases h
    exact same_send Z st _ _ _

theorem same_Lrecv_raw (Z : Zmq E) (L : Lua) (args : List LuaValue) (st : State E)
    (r : List LuaValue × State E) (h : Lzmq_recv_raw Z L args st = .ok r) :
    SameHandles st r.2 := by
  unfold Lzmq_recv_raw at h
  split at h
  · cases h
  split at h
  · cases h
  split at h
  · cases h
  dsimp only at h
  split at h
  · cases h
    exact ((same_recv Z st _ _ _).trans (same_msg_close Z _ _)).trans (same_return_error Z args _)
  · cases h
    exact same_recv Z st _ _ _

theorem same_Ldata (args : List LuaValue) (st : State E)
    (r : List LuaValue × State E) (h : Lzmq_msg_data args st = .ok r) :
    SameHandles st r.2 := by
  unfold Lzmq_msg_data at h
  split at h
  · cases h
  · cases h
    exact SameHandles.rfl st

theorem same_Lgc (Z : Zmq E) (args : List LuaValue) (st : State E)
    (r : List LuaValue × State E) (h : Lzmq_msg_gc Z args st = .ok r) :
    SameHandles st r.2 := by
  unfold Lzmq_msg_gc at h
  split at h
  · cases h
  · cases h
    exact same_msg_close Z st _

theorem Released.of_same {st st' : State E} {h : Nat} (hr : Released st h)
    (hs : SameHandles st st') : Released st' h := by
  unfold Released at *
  rw [hs.1, hs.2]
  exact hr

theorem released_Linit (Z : Zmq E) (L : Lua) (args : List LuaValue) (st : State E)
    (r : List LuaValue × State E) (h : Nat) (hr : Released st h)
    (hc : Lzmq_init Z L args st = .ok r) : Released r.2 h := by
  obtain ⟨hp, hn⟩ := hr
  have hne : h ≠ st.next := Nat.ne_of_lt hn
  unfold Lzmq_init at hc
  split at hc
  · cases hc
  dsimp only at hc
  split at hc <;> cases hc <;>
    exact ⟨by simp [zmq_return_error, call_zmq_init, State.after, Function.update_apply, hne, hp],
      by simp [zmq_return_error, call_zmq_init, State.after]; omega⟩

theorem released_Lsocket (Z : Zmq E) (L : Lua) (args : List LuaValue) (st : State E)
    (r : List LuaValue × State E) (h : Nat) (hr : Released st h)
    (hc : Lzmq_socket Z L args st = .ok r) : Released r.2 h := by
  obtain ⟨hp, hn⟩ := hr
  have hne : h ≠ st.next := Nat.ne_of_lt hn
  unfold Lzmq_socket at hc
  split at hc
  · cases hc
  split at hc
  · cases hc
  dsimp only at hc
  split at hc <;> cases hc <;>
    exact ⟨by simp [zmq_return_error, call_zmq_socket, State.after, Function.update_apply, hne, hp],
      by simp [zmq_return_error, call_zmq_socket, State.after]; omega⟩

theorem released_Lterm (Z : Zmq E) (args : List LuaValue) (st : State E)
    (r : List LuaValue × State E) (h : Nat) (hr : Released st h)
    (hc : Lzmq_term Z args st = .ok r) : Released r.2 h := by
  obtain ⟨hp, hn⟩ := hr
  unfold Lzmq_term at hc
  split at hc
  · cases hc
  split at hc
  · dsimp only at hc
    split at hc <;> cases hc
    · refine ⟨?_, hn⟩
      simp only [call_zmq_term, State.after, Function.update_apply]
      split
      · rfl
      · exact hp
    · exact ⟨hp, hn⟩
  · cases hc
    exact ⟨hp, hn⟩

theorem released_Lclose (Z : Zmq E) (args : List LuaValue) (st : State E)
    (r : List LuaValue × State E) (h : Nat) (hr : Released st h)
    (hc : Lzmq_close Z args st = .ok r) : Released r.2 h := by
  obtain ⟨hp, hn⟩ := hr
  unfold Lzmq_close at hc
  split at hc
  · cases hc
  split at hc
  · dsimp only at hc
    split at hc <;> cases hc
    · refine ⟨?_, hn⟩
      simp only [call_zmq_close, State.after, Function.update_apply]
      split
      · rfl
      · exact hp
    · exact ⟨hp, hn⟩
  · cases hc
    exact ⟨hp, hn⟩

theorem released_LMessage (Z : Zmq E) (args : List LuaValue) (st : State E)
    (r : List LuaValue × State E) (h : Nat) (hr : Released st h)
    (hc : Lzmq_Message Z args st = .ok r) : Released r.2 h := by
  obtain ⟨hp, hn⟩ := hr
  unfold Lzmq_Message at hc
  dsimp only at hc
  cases hc
  have hs := same_msg_init Z { st with next := st.next + 1 } (.udata st.next)
  have h0 : Released { st with next := st.next + 1 } h := ⟨hp, Nat.lt_succ_of_lt hn⟩
  exact h0.of_same hs

theorem call_released (H : Header) (Z : Zmq E) (L : Lua) (f : Fn) (args : List LuaValue)
    (st : State E) (r : List LuaValue × State E) (h : Nat) (hr : Released st h)
    (hc : call H Z L f args st = .ok r) : Released r.2 h := by
  cases f <;> simp only [call] at hc
  · exact released_Linit Z L args st r h hr hc
  · exact released_Lterm Z args st r h hr hc
  · exact released_Lsocket Z L args st r h hr hc
  · exact released_Lclose Z args st r h hr hc
  · exact hr.of_same (same_setopt H Z L args st r hc)
  · exact hr.of_same (same_getopt H Z L args st r hc)
  · exact hr.of_same (same_Lbind Z L args st r hc)
  · exact hr.of_same (same_Lconnect Z L args st r hc)
  · exact hr.of_same (same_Lsend Z L args st r hc)
  · exact hr.of_same (same_Lsend_raw Z L args st r hc)
  · exact hr.of_same (same_Lrecv Z L args st r hc)
  · exact hr.of_same (same_Lrecv_raw Z L args st r hc)
  · exact released_LMessage Z args st r h hr hc
  · exact hr.of_same (same_Ldata args st r hc)
  · exact hr.of_same (same_Lgc Z args st r hc)

theorem exec_released (H : Header) (Z : Zmq E) (L : Lua) (st : State E) (c : Fn × List LuaValue)
    (h : Nat) (hr : Released st h) : Released (exec H Z L st c) h := by
  unfold exec
  split
  · next r hc => exact call_released H Z L c.1 c.2 st r h hr hc
  · exact hr

theorem run_released (H : Header) (Z : Zmq E) (L : Lua) (cs : List (Fn × List LuaValue))
    (st : State E) (h : Nat) (hr : Released st h) : Released (run H Z L cs st) h := by
  induction cs generalizing st with
  | nil => exact hr
  | cons c cs ih => exact ih (exec H Z L st c) (exec_released H Z L st c h hr)

theorem term_success_released (Z : Zmq E) (args : List LuaValue) (st st' : State E) (h : Nat)
    (hh : luaL_checkudata args 1 .MT_ZMQ_CONTEXT = .ok h) (hn : h < st.next)
    (hok : Lzmq_term Z args st = .ok ([.boolean true], st')) : Released st' h := by
  unfold Lzmq_term at hok
  rw [hh] at hok
  simp only [ret_one] at hok
  split at hok
  · split at hok
    · cases hok
      exact ⟨by simp [call_zmq_term, State.after], hn⟩
    · simp [zmq_return_error, ret_two] at hok
  · next hp =>
    cases hok
    exact ⟨not_not.mp hp, hn⟩

theorem close_success_released (Z : Zmq E) (args : List LuaValue) (st st' : State E) (h : Nat)
    (hh : luaL_checkudata args 1 .MT_ZMQ_SOCKET = .ok h) (hn : h < st.next)
    (hok : Lzmq_close Z args st = .ok ([.boolean true], st')) : Released st' h := by
  unfold Lzmq_close at hok
  rw [hh] at hok
  simp only [ret_one] at hok
  split at hok
  · split at hok
    · cases hok
      exact ⟨by simp [call_zmq_close, State.after], hn⟩
    · simp [zmq_return_error, ret_two] at hok
  · next hp =>
    cases hok
    exact ⟨not_not.mp hp, hn⟩

theorem term_of_released (Z : Zmq E) (args : List LuaValue) (st : State E) (h : Nat)
    (hh : luaL_checkudata args 1 .MT_ZMQ_CONTEXT = .ok h) (hr : Released st h) :
    Lzmq_term Z args st = .ok ([.boolean true], st) := by
  simp [Lzmq_term, hh, hr.1, ret_one]

theorem close_of_released (Z : Zmq E) (args : List LuaValue) (st : State E) (h : Nat)
    (hh : luaL_checkudata args 1 .MT_ZMQ_SOCKET = .ok h) (hr : Released st h) :
    Lzmq_close Z args st = .ok ([.boolean true], st) := by
  simp [Lzmq_close, hh, hr.1, ret_one]

/-- C4: release is idempotent for Context (`term`, `Lzmq_term`) and Socket (`close`,
`Lzmq_close`) handles. Once a release call on a created handle has returned
true, the handle's `ptr` is `NULL`, and after any further sequence of calls of
the binding every release call on that handle returns true and leaves the whole
state, the trace of native calls included, as it found it: no `zmq_term` or
`zmq_close` is made. The finalizer `__gc` is the same C function as the explicit
call. -/
theorem release_idempotent (H : Header) (Z : Zmq E) (L : Lua) (f : Fn) (mt : MT)
    (hf : (f = .term ∧ mt = .MT_ZMQ_CONTEXT) ∨ (f = .close ∧ mt = .MT_ZMQ_SOCKET))
    (args : List LuaValue) (st st' : State E) (h : Nat)
    (hh : luaL_checkudata args 1 mt = .ok h) (hn : h < st.next)
    (hok : call H Z L f args st = .ok ([.boolean true], st')) :
    st'.ptr h = 0 ∧
    ∀ (cs : List (Fn × List LuaValue)) (args' : List LuaValue),
      luaL_checkudata args' 1 mt = .ok h →
      call H Z L f args' (run H Z L cs st') = .ok ([.boolean true], run H Z L cs st') := by
  rcases hf with ⟨hf, hmt⟩ | ⟨hf, hmt⟩
  · subst hf hmt
    have hr := term_success_released Z args st st' h hh hn hok
    exact ⟨hr.1, fun cs args' hh' =>
      term_of_released Z args' _ h hh' (run_released H Z L cs st' h hr)⟩
  · subst hf hmt
    have hr := close_success_released Z args st st' h hh hn hok
    exact ⟨hr.1, fun cs args' hh' =>
      close_of_released Z args' _ h hh' (run_released H Z L cs st' h hr)⟩

/-- Witness for C4: the socket of the initial state is closed, then used for a
send and given to `close` again; the context is terminated, a socket is asked
of it and it is given to `term` again. -/
theorem release_idempotent_witness :
    ((exec zmq_h sim plain_lua (init_state ⟨[], [], []⟩) (.close, [sock1])).ptr 1 = 0 ∧
    call zmq_h sim plain_lua .close [sock1]
        (run zmq_h sim plain_lua [(.send, [sock1, .string [112]])]
          (exec zmq_h sim plain_lua (init_state ⟨[], [], []⟩) (.close, [sock1])))
      = .ok ([.boolean true], run zmq_h sim plain_lua [(.send, [sock1, .string [112]])]
          (exec zmq_h sim plain_lua (init_state ⟨[], [], []⟩) (.close, [sock1])))) ∧
    ((exec zmq_h sim plain_lua (init_state ⟨[], [], []⟩) (.term, [ctx0])).ptr 0 = 0 ∧
    call zmq_h sim plain_lua .term [ctx0]
        (run zmq_h sim plain_lua [(.socket, [ctx0, .number 0])]
          (exec zmq_h sim plain_lua (init_state ⟨[], [], []⟩) (.term, [ctx0])))
      = .ok ([.boolean true], run zmq_h sim plain_lua [(.socket, [ctx0, .number 0])]
          (exec zmq_h sim plain_lua (init_state ⟨[], [], []⟩) (.term, [ctx0])))) :=
  have t := release_idempotent zmq_h sim plain_lua .close .MT_ZMQ_SOCKET (Or.inr ⟨rfl, rfl⟩)
    [sock1] (init_state ⟨[], [], []⟩)
    (exec zmq_h sim plain_lua (init_state ⟨[], [], []⟩) (.close, [sock1])) 1 rfl (by decide) rfl
  have u := release_idempotent zmq_h sim plain_lua .term .MT_ZMQ_CONTEXT (Or.inl ⟨rfl, rfl⟩)
    [ctx0] (init_state ⟨[], [], []⟩)
    (exec zmq_h sim plain_lua (init_state ⟨[], [], []⟩) (.term, [ctx0])) 0 rfl (by decide) rfl
  ⟨⟨t.1, t.2 [(.send, [sock1, .string [112]])] [sock1] rfl⟩,
    ⟨u.1, u.2 [(.socket, [ctx0, .number 0])] [ctx0] rfl⟩⟩

/-! ## Send and receive -/

theorem writeBuf_replicate (data : Bytes) :
    writeBuf (List.replicate data.length 0) data = data := by
  simp [writeBuf]

theorem send_body_results (Z : Zmq E) (args : List LuaValue) (st : State E) (s : Nat)
    (data : Bytes) (flags : Int) :
    let i := Z.zmq_msg_init_size st.eng st.errno .transient data.length
    let o := Z.zmq_send i.eng i.errno (st.ptr s) .transient (some data) flags
    let c := Z.zmq_msg_close o.eng o.errno .transient
    (send_body Z args st s data flags).1 =
      if i.rc ≠ 0 then error_pair Z i.errno
      else if c.rc ≠ 0 then error_pair Z c.errno
      else if o.rc ≠ 0 then error_pair Z c.errno
      else [.boolean true] := by
  intro i o c
  by_cases hi : (Z.zmq_msg_init_size st.eng st.errno .transient data.length).rc = 0
  · simp only [send_body, call_zmq_msg_init_size, call_zmq_send, call_zmq_msg_close,
      memcpy_msg_data, msg_content, State.after, zmq_return_error, ret_two, ret_one, error_pair,
      i, o, c, hi, if_true, Function.update_same, Option.getD_some, writeBuf_replicate,
      ne_eq, not_true_eq_false, if_false]
    split_ifs <;> simp_all
  · simp [send_body, call_zmq_msg_init_size, State.after, zmq_return_error, ret_two, error_pair,
      i, hi]

theorem send_body_trace (Z : Zmq E) (args : List LuaValue) (st : State E) (s : Nat)
    (data : Bytes) (flags : Int) :
    let i := Z.zmq_msg_init_size st.eng st.errno .transient data.length
    let o := Z.zmq_send i.eng i.errno (st.ptr s) .transient (some data) flags
    let c := Z.zmq_msg_close o.eng o.errno .transient
    (send_body Z args st s data flags).2.trace =
      st.trace ++ [.zmq_msg_init_size .transient data.length] ++
      (if i.rc ≠ 0 then error_fetch i.errno
       else [.zmq_send (st.ptr s) .transient (some data) flags, .zmq_msg_close .transient] ++
        (if c.rc ≠ 0 ∨ o.rc ≠ 0 then error_fetch c.errno else [])) := by
  intro i o c
  by_cases hi : (Z.zmq_msg_init_size st.eng st.errno .transient data.length).rc = 0
  · simp only [send_body, call_zmq_msg_init_size, call_zmq_send, call_zmq_msg_close,
      memcpy_msg_data, msg_content, State.after, zmq_return_error, error_fetch,
      i, o, c, hi, if_true, Function.update_same, Option.getD_some, writeBuf_replicate,
      ne_eq, not_true_eq_false, if_false]
    split_ifs <;> simp_all
  · simp [send_body, call_zmq_msg_init_size, State.after, zmq_return_error, error_fetch,
      i, hi]

theorem recv_body_results (Z : Zmq E) (args : List LuaValue) (st : State E) (s : Nat)
    (flags : Int) :
    let i := Z.zmq_msg_init st.eng st.errno .transient
    let r := Z.zmq_recv i.eng i.errno (st.ptr s) .transient flags
    let c := Z.zmq_msg_close r.eng r.errno .transient
    (recv_body Z args st s flags).1 =
      if i.rc ≠ 0 then error_pair Z i.errno
      else if r.rc ≠ 0 then error_pair Z c.errno
      else if c.rc ≠ 0 then error_pair Z c.errno
      else [.string r.data] := by
  intro i r c
  by_cases hi : (Z.zmq_msg_init st.eng st.errno .transient).rc = 0
  · simp only [recv_body, call_zmq_msg_init, call_zmq_recv, call_zmq_msg_close,
      msg_content, State.after, zmq_return_error, ret_two, ret_one, error_pair,
      i, r, c, hi, if_true, ne_eq, not_true_eq_false, if_false]
    split_ifs <;> simp_all [ret_two, ret_one]
  · simp [recv_body, call_zmq_msg_init, State.after, zmq_return_error, ret_two, error_pair,
      i, hi]

theorem recv_body_trace (Z : Zmq E) (args : List LuaValue) (st : State E) (s : Nat)
    (flags : Int) :
    let i := Z.zmq_msg_init st.eng st.errno .transient
    let r := Z.zmq_recv i.eng i.errno (st.ptr s) .transient flags
    let c := Z.zmq_msg_close r.eng r.errno .transient
    (recv_body Z args st s flags).2.trace =
      st.trace ++ [.zmq_msg_init .transient] ++
      (if i.rc ≠ 0 then error_fetch i.errno
       else [.zmq_recv (st.ptr s) .transient flags, .zmq_msg_close .transient] ++
        (if r.rc ≠ 0 ∨ c.rc ≠ 0 then error_fetch c.errno else [])) := by
  intro i r c
  by_cases hi : (Z.zmq_msg_init st.eng st.errno .transient).rc = 0
  · simp only [recv_body, call_zmq_msg_init, call_zmq_recv, call_zmq_msg_close,
      msg_content, State.after, zmq_return_error, error_fetch,
      i, r, c, hi, if_true, ne_eq, not_true_eq_false, if_false]
    split_ifs <;> simp_all
  · simp [recv_body, call_zmq_msg_init, State.after, zmq_return_error, error_fetch,
      i, hi]

theorem Lzmq_send_eq (Z : Zmq E) (L : Lua) (args : List LuaValue) (st : State E) (s : Nat)
    (data : Bytes) (flags : Int)
    (hs : luaL_checkudata args 1 .MT_ZMQ_SOCKET = .ok s)
    (hd : luaL_checklstring L args 2 = .ok data)
    (hf : luaL_optint L args 3 0 = .ok flags) :
    Lzmq_send Z L args st = .ok (send_body Z args st s data flags) := by
  simp [Lzmq_send, hs, hd, hf]

theorem Lzmq_recv_eq (Z : Zmq E) (L : Lua) (args : List LuaValue) (st : State E) (s : Nat)
    (flags : Int)
    (hs : luaL_checkudata args 1 .MT_ZMQ_SOCKET = .ok s)
    (hf : luaL_optint L args 2 0 = .ok flags) :
    Lzmq_recv Z L args st = .ok (recv_body Z args st s flags) := by
  simp [Lzmq_recv, hs, hf]

/-- C8: `Lzmq_send` returns true exactly when `zmq_msg_init_size`, `zmq_send` and
`zmq_msg_close` all returned 0, and otherwise the pair of nil and an error
string; when the native send returned 0 on the payload and the release of the
transient frame failed, it returns nil and the description of the error the
release left. -/
theorem send_true_iff (Z : Zmq E) (L : Lua) (args : List LuaValue) (st : State E) (s : Nat)
    (data : Bytes) (flags : Int)
    (hs : luaL_checkudata args 1 .MT_ZMQ_SOCKET = .ok s)
    (hd : luaL_checklstring L args 2 = .ok data)
    (hf : luaL_optint L args 3 0 = .ok flags) :
    let i := Z.zmq_msg_init_size st.eng st.errno .transient data.length
    let o := Z.zmq_send i.eng i.errno (st.ptr s) .transient (some data) flags
    let c := Z.zmq_msg_close o.eng o.errno .transient
    ∃ r, Lzmq_send Z L args st = .ok r ∧
      (r.1 = [.boolean true] ↔ i.rc = 0 ∧ o.rc = 0 ∧ c.rc = 0) ∧
      (r.1 ≠ [.boolean true] → ∃ e, r.1 = [.nil, .string (cstr (Z.zmq_strerror e))]) ∧
      (i.rc = 0 → o.rc = 0 → c.rc ≠ 0 →
        r.1 = [.nil, .string (cstr (Z.zmq_strerror c.errno))] ∧
        Call.zmq_send (st.ptr s) .transient (some data) flags ∈ r.2.trace) := by
  intro i o c
  refine ⟨_, Lzmq_send_eq Z L args st s data flags hs hd hf, ?_, ?_, ?_⟩
  · have h := send_body_results Z args st s data flags
    dsimp only at h
    rw [h]
    simp only [error_pair, i, o, c]
    split_ifs <;> simp_all
  · have h := send_body_results Z args st s data flags
    dsimp only at h
    rw [h]
    simp only [error_pair]
    split_ifs
    · intro _; exact ⟨_, rfl⟩
    · intro _; exact ⟨_, rfl⟩
    · intro _; exact ⟨_, rfl⟩
    · intro hne; exact absurd rfl hne
  · intro hi ho hc
    have h := send_body_results Z args st s data flags
    have ht := send_body_trace Z args st s data flags
    dsimp only at h ht
    rw [h, ht]
    simp [error_pair, i, o, c, hi, hc] at *
    simp [hi, hc]

/-- Witness for C8: allocation and native send succeed, the release fails with
`errno` 14; `send` reports the error of the release. -/
theorem send_true_iff_witness :
    ∃ r, Lzmq_send sim plain_lua [sock1, .string [112, 105]]
        (init_state ⟨[(0, 0), (0, 0), (-1, 14)], [], []⟩) = .ok r ∧
      r.1 = [.nil, .string [69, 70, 65, 85, 76, 84]] ∧
      Call.zmq_send 8192 .transient (some [112, 105]) 0 ∈ r.2.trace :=
  match send_true_iff sim plain_lua [sock1, .string [112, 105]]
    (init_state ⟨[(0, 0), (0, 0), (-1, 14)], [], []⟩) 1 [112, 105] 0 rfl rfl rfl with
  | ⟨r, hr, _, _, h3⟩ => ⟨r, hr, (h3 rfl rfl (by decide)).1, (h3 rfl rfl (by decide)).2⟩

/-- C9: the transient frame of `Lzmq_send` and of `Lzmq_recv` is released by exactly
one `zmq_msg_close` when its initialization returned 0, whatever the native send
or receive and the release itself return, and by none when the initialization
failed: the release calls among the native calls of the operation are exactly
that one call on the transient frame, or none. -/
theorem transient_frame_closed_once (Z : Zmq E) (L : Lua) (st : State E)
    (args : List LuaValue) (s : Nat) (data : Bytes) (flags : Int)
    (args' : List LuaValue) (s' : Nat) (flags' : Int)
    (hs : luaL_checkudata args 1 .MT_ZMQ_SOCKET = .ok s)
    (hd : luaL_checklstring L args 2 = .ok data)
    (hf : luaL_optint L args 3 0 = .ok flags)
    (hs' : luaL_checkudata args' 1 .MT_ZMQ_SOCKET = .ok s')
    (hf' : luaL_optint L args' 2 0 = .ok flags') :
    (∃ r added, Lzmq_send Z L args st = .ok r ∧ r.2.trace = st.trace ++ added ∧
      added.filter is_msg_close =
        if (Z.zmq_msg_init_size st.eng st.errno .transient data.length).rc = 0
        then [.zmq_msg_close .transient] else []) ∧
    (∃ r added, Lzmq_recv Z L args' st = .ok r ∧ r.2.trace = st.trace ++ added ∧
      added.filter is_msg_close =
        if (Z.zmq_msg_init st.eng st.errno .transient).rc = 0
        then [.zmq_msg_close .transient] else []) := by
  constructor
  · have ht := send_body_trace Z args st s data flags
    dsimp only at ht
    rw [List.append_assoc] at ht
    refine ⟨_, _, Lzmq_send_eq Z L args st s data flags hs hd hf, ht, ?_⟩
    simp only [error_fetch]
    split_ifs <;> simp_all [is_msg_close, List.filter]
  · have ht := recv_body_trace Z args' st s' flags'
    dsimp only at ht
    rw [List.append_assoc] at ht
    refine ⟨_, _, Lzmq_recv_eq Z L args' st s' flags' hs' hf', ht, ?_⟩
    simp only [error_fetch]
    split_ifs <;> simp_all [is_msg_close, List.filter]

/-- Witness for C9: a send whose native send fails and a receive whose native
receive fails (empty queue); each makes one release call. -/
theorem transient_frame_closed_once_witness :
    (∃ r added, Lzmq_send sim plain_lua [sock1, .string [112]]
        (init_state ⟨[(0, 0), (-1, 11)], [], []⟩) = .ok r ∧
      r.2.trace = (init_state ⟨[(0, 0), (-1, 11)], [], []⟩).trace ++ added ∧
      added.filter is_msg_close = [.zmq_msg_close .transient]) ∧
    (∃ r added, Lzmq_recv sim plain_lua [sock1]
        (init_state ⟨[(0, 0), (-1, 11)], [], []⟩) = .ok r ∧
      r.2.trace = (init_state ⟨[(0, 0), (-1, 11)], [], []⟩).trace ++ added ∧
      added.filter is_msg_close = [.zmq_msg_close .transient]) :=
  transient_frame_closed_once sim plain_lua (init_state ⟨[(0, 0), (-1, 11)], [], []⟩)
    [sock1, .string [112]] 1 [112] 0 [sock1] 1 0 rfl rfl rfl rfl rfl

theorem send_body_engine (Z : Zmq E) (args : List LuaValue) (st : State E) (s : Nat)
    (data : Bytes) (flags : Int) :
    let i := Z.zmq_msg_init_size st.eng st.errno .transient data.length
    let o := Z.zmq_send i.eng i.errno (st.ptr s) .transient (some data) flags
    let c := Z.zmq_msg_close o.eng o.errno .transient
    (send_body Z args st s data flags).2.eng = (if i.rc ≠ 0 then i.eng else c.eng) ∧
    (send_body Z args st s data flags).2.errno = (if i.rc ≠ 0 then i.errno else c.errno) := by
  intro i o c
  by_cases hi : (Z.zmq_msg_init_size st.eng st.errno .transient data.length).rc = 0
  · simp only [send_body, call_zmq_msg_init_size, call_zmq_send, call_zmq_msg_close,
      memcpy_msg_data, msg_content, State.after, zmq_return_error,
      i, o, c, hi, if_true, Function.update_same, Option.getD_some, writeBuf_replicate,
      ne_eq, not_true_eq_false, if_false]
    split_ifs <;> simp_all
  · simp [send_body, call_zmq_msg_init_size, State.after, zmq_return_error, i, hi]

theorem sim_step_idle (e : Sim) (errno : Int) (h : e.script = []) :
    e.step errno = ⟨0, e, errno⟩ := by
  simp [Sim.step, h]

/-- C3: `Lzmq_send` hands the native send a frame whose content is exactly the
payload (for every byte string, empty or with zero bytes), `Lzmq_recv` returns
exactly the content of the frame the native receive produced, and with the
simulated engine, which delivers frames unchanged, a receive after a send
returns the payload that was sent. -/
theorem send_recv_exact (Z : Zmq E) (L : Lua) (st : State E)
    (args : List LuaValue) (s : Nat) (data : Bytes) (flags : Int)
    (args' : List LuaValue) (s' : Nat) (flags' : Int)
    (hs : luaL_checkudata args 1 .MT_ZMQ_SOCKET = .ok s)
    (hd : luaL_checklstring L args 2 = .ok data)
    (hf : luaL_optint L args 3 0 = .ok flags)
    (hs' : luaL_checkudata args' 1 .MT_ZMQ_SOCKET = .ok s')
    (hf' : luaL_optint L args' 2 0 = .ok flags') :
    (∃ r added, Lzmq_send Z L args st = .ok r ∧ r.2.trace = st.trace ++ added ∧
      (∀ p m x f, Call.zmq_send p m x f ∈ added → x = some data ∧ m = .transient) ∧
      ((Z.zmq_msg_init_size st.eng st.errno .transient data.length).rc = 0 →
        Call.zmq_send (st.ptr s) .transient (some data) flags ∈ added)) ∧
    (let i := Z.zmq_msg_init st.eng st.errno .transient
     let v := Z.zmq_recv i.eng i.errno (st.ptr s') .transient flags'
     let c := Z.zmq_msg_close v.eng v.errno .transient
     ∃ r, Lzmq_recv Z L args' st = .ok r ∧
      (i.rc = 0 → v.rc = 0 → c.rc = 0 → r.1 = [.string v.data]) ∧
      ∀ x, r.1 = [.string x] → x = v.data) ∧
    (∀ stp : State Sim, stp.eng.script = [] → stp.eng.queue = [] →
      ∃ r1, Lzmq_send sim L args stp = .ok r1 ∧ r1.1 = [.boolean true] ∧
        ∃ r2, Lzmq_recv sim L args' r1.2 = .ok r2 ∧ r2.1 = [.string data]) := by
  refine ⟨?_, ?_, ?_⟩
  · have ht := send_body_trace Z args st s data flags
    dsimp only at ht
    rw [List.append_assoc] at ht
    refine ⟨_, _, Lzmq_send_eq Z L args st s data flags hs hd hf, ht, ?_, ?_⟩
    · intro p m x f
      simp only [error_fetch]
      split_ifs <;> simp
      all_goals (intro _ hm hx _; exact ⟨hx, hm⟩)
    · intro hi
      simp [hi]
  · intro i v c
    refine ⟨_, Lzmq_recv_eq Z L args' st s' flags' hs' hf', ?_, ?_⟩
    · intro hi hv hc
      have h := recv_body_results Z args' st s' flags'
      dsimp only at h
      rw [h]
      simp [i, v, c, hi, hv, hc] at *
      simp [hi, hv, hc]
    · intro x
      have h := recv_body_results Z args' st s' flags'
      dsimp only at h
      rw [h]
      simp only [error_pair]
      split_ifs <;> simp
      intro hx
      exact hx.symm
  · intro stp hscript hqueue
    refine ⟨_, Lzmq_send_eq sim L args stp s data flags hs hd hf, ?_, ?_⟩
    · have h := send_body_results sim args stp s data flags
      dsimp only at h
      rw [h]
      simp [sim, sim_step_idle, hscript]
    · refine ⟨_, Lzmq_recv_eq sim L args' _ s' flags' hs' hf', ?_⟩
      have h := recv_body_results sim args' (send_body sim args stp s data flags).2 s' flags'
      have he := send_body_engine sim args stp s data flags
      dsimp only at h he
      rw [h, he.1, he.2]
      simp [sim, sim_step_idle, hscript, hqueue]

/-- Witness for C3: a payload with zero bytes is sent and received back on the
simulated engine. -/
theorem send_recv_exact_witness :
    ∃ r1, Lzmq_send sim plain_lua [sock1, .string [0, 112, 0]] (init_state ⟨[], [], []⟩) = .ok r1 ∧
      r1.1 = [.boolean true] ∧
      ∃ r2, Lzmq_recv sim plain_lua [sock1] r1.2 = .ok r2 ∧ r2.1 = [.string [0, 112, 0]] :=
  (send_recv_exact sim plain_lua (init_state ⟨[], [], []⟩) [sock1, .string [0, 112, 0]] 1
    [0, 112, 0] 0 [sock1] 1 0 rfl rfl rfl rfl rfl).2.2 (init_state ⟨[], [], []⟩) rfl rfl

/-! ## Socket options -/

theorem writeBuf_length (buf data : Bytes) : (writeBuf buf data).length = buf.length := by
  simp [writeBuf]
  omega

theorem cstr_no_zero (b : Bytes) : (0 : Byte) ∉ cstr b := by
  intro h
  have := List.mem_takeWhile_imp h
  simp at this

theorem cstr_length_le (l : Bytes) (k : Nat) (hk : l[k]? = some 0) : (cstr l).length ≤ k := by
  induction l generalizing k with
  | nil => simp at hk
  | cons a l ih =>
    cases k with
    | zero =>
      simp at hk
      simp [cstr, List.takeWhile, hk]
    | succ k =>
      simp at hk
      have := ih k hk
      simp only [cstr, List.takeWhile] at this ⊢
      split
      · simp; exact this
      · simp

theorem cstr_append_zero (v rest : Bytes) (h : (0 : Byte) ∉ v) : cstr (v ++ 0 :: rest) = v := by
  induction v with
  | nil => simp [cstr]
  | cons a v ih =>
    have ha : a ≠ 0 := fun h0 => h (by simp [h0])
    have hv : (0 : Byte) ∉ v := fun hm => h (by simp [hm])
    have := ih hv
    simp only [cstr] at this ⊢
    show List.takeWhile _ (a :: (v ++ 0 :: rest)) = a :: v
    rw [List.takeWhile_cons_of_pos (by simpa using ha), this]

theorem get_identity_first (H : Header) :
    ¬ (H.ZMQ_IDENTITY = H.ZMQ_SWAP ∨ H.ZMQ_IDENTITY = H.ZMQ_RATE
      ∨ H.ZMQ_IDENTITY = H.ZMQ_RECOVERY_IVL ∨ H.ZMQ_IDENTITY = H.ZMQ_MCAST_LOOP
      ∨ H.ZMQ_IDENTITY = H.ZMQ_RCVMORE) := by
  have h := H.distinct
  rintro (e | e | e | e | e) <;> rw [e] at h <;> simp at h

theorem call_zmq_getsockopt_eq (Z : Zmq E) (st : State E) (s : Nat) (o : Int) (buf : Bytes)
    (n : Nat) (hn : buf.length = n) :
    call_zmq_getsockopt Z st s o buf =
      ((Z.zmq_getsockopt st.eng st.errno s o n).rc,
        writeBuf buf (Z.zmq_getsockopt st.eng st.errno s o n).optval,
        st.after (.zmq_getsockopt s o n) (Z.zmq_getsockopt st.eng st.errno s o n).eng
          (Z.zmq_getsockopt st.eng st.errno s o n).errno) := by
  subst hn
  rfl

theorem getsockopt_identity_eq (H : Header) (Z : Zmq E) (L : Lua) (args : List LuaValue)
    (st : State E) (s : Nat)
    (hs : luaL_checkudata args 1 .MT_ZMQ_SOCKET = .ok s)
    (ho : luaL_checkint L args 2 = .ok H.ZMQ_IDENTITY) :
    let g := Z.zmq_getsockopt st.eng st.errno (st.ptr s) H.ZMQ_IDENTITY 256
    let st1 := st.after (.zmq_getsockopt (st.ptr s) H.ZMQ_IDENTITY 256) g.eng g.errno
    Lzmq_getsockopt H Z L args st = .ok (
      if g.rc = 0 then
        ([.string (cstr (identity_buffer (writeBuf (List.replicate 256 0) g.optval)))], st1)
      else
        (error_pair Z g.errno, { st1 with trace := st1.trace ++ error_fetch g.errno })) := by
  intro g st1
  have hd := get_identity_first H
  unfold Lzmq_getsockopt
  rw [hs, ho]
  dsimp only
  rw [if_neg hd, if_pos rfl,
    call_zmq_getsockopt_eq Z st (st.ptr s) H.ZMQ_IDENTITY _ 256 (List.length_replicate 256 0)]
  dsimp only
  by_cases hg : (Z.zmq_getsockopt st.eng st.errno (st.ptr s) H.ZMQ_IDENTITY 256).rc = 0
  · rw [if_pos hg, if_pos hg, ret_one]
  · rw [if_neg hg, if_neg hg]
    simp only [return_rc, zmq_return_error, ret_two, ne_eq, hg, not_false_eq_true, if_true]
    rfl

/-- C10: a successful `getopt` of `ZMQ_IDENTITY` returns the bytes before the first
zero byte of the 256-byte buffer, the buffer being the zeroed array overwritten
by what the engine wrote, with byte 255 set to zero. The result is at most 255
bytes long, has no zero byte, and is the same for every length the engine
reports: an engine that writes the same bytes and reports another length gives
the same result. -/
theorem getsockopt_identity (H : Header) (Z : Zmq E) (L : Lua) (args : List LuaValue)
    (st : State E) (s : Nat)
    (hs : luaL_checkudata args 1 .MT_ZMQ_SOCKET = .ok s)
    (ho : luaL_checkint L args 2 = .ok H.ZMQ_IDENTITY)
    (hrc : (Z.zmq_getsockopt st.eng st.errno (st.ptr s) H.ZMQ_IDENTITY 256).rc = 0) :
    let g := Z.zmq_getsockopt st.eng st.errno (st.ptr s) H.ZMQ_IDENTITY 256
    let id := (writeBuf (List.replicate 256 0) g.optval).set 255 0
    ∃ r, Lzmq_getsockopt H Z L args st = .ok r ∧
      r.1 = [.string (id.takeWhile (fun b => b != 0))] ∧
      (id.takeWhile (fun b => b != 0)).length ≤ 255 ∧
      (0 : Byte) ∉ id.takeWhile (fun b => b != 0) ∧
      ∀ Z' : Zmq E,
        (Z'.zmq_getsockopt st.eng st.errno (st.ptr s) H.ZMQ_IDENTITY 256).rc = 0 →
        (Z'.zmq_getsockopt st.eng st.errno (st.ptr s) H.ZMQ_IDENTITY 256).optval = g.optval →
        ∃ r', Lzmq_getsockopt H Z' L args st = .ok r' ∧ r'.1 = r.1 := by
  intro g id
  have h := getsockopt_identity_eq H Z L args st s hs ho
  dsimp only at h
  rw [if_pos hrc] at h
  refine ⟨_, h, rfl, ?_, cstr_no_zero id, ?_⟩
  · apply cstr_length_le id 255
    apply List.getElem?_set_self
    rw [writeBuf_length, List.length_replicate]
    decide
  · intro Z' hrc' hv
    have h' := getsockopt_identity_eq H Z' L args st s hs ho
    dsimp only at h'
    rw [if_pos hrc'] at h'
    refine ⟨_, h', ?_⟩
    dsimp only
    rw [hv]

set_option maxRecDepth 100000 in
/-- Witness for C10: the engine holds the identity "ab" followed by a zero and "c". -/
theorem getsockopt_identity_witness :
    ∃ r, Lzmq_getsockopt zmq_h sim plain_lua [sock1, .number 5]
        (init_state ⟨[], [(8192, 5, [97, 98, 0, 99])], []⟩) = .ok r ∧
      r.1 = [.string [97, 98]] :=
  match getsockopt_identity zmq_h sim plain_lua [sock1, .number 5]
    (init_state ⟨[], [(8192, 5, [97, 98, 0, 99])], []⟩) 1 rfl rfl rfl with
  | ⟨r, hr, hv, _⟩ => ⟨r, hr, hv.trans rfl⟩

theorem range_eight : List.range 8 = [0, 1, 2, 3, 4, 5, 6, 7] := by decide

theorem le_value_bytes64 (v : Int) : (le_value (bytes64 v) : Int) = v % 2 ^ 64 := by
  have h0 : 0 ≤ v % 2 ^ 64 := Int.emod_nonneg _ (by norm_num)
  have h1 : v % 2 ^ 64 < 2 ^ 64 := Int.emod_lt_of_pos _ (by norm_num)
  obtain ⟨w, hw⟩ := Int.eq_ofNat_of_zero_le h0
  rw [hw] at h1 ⊢
  have hw' : w < 2 ^ 64 := by exact_mod_cast h1
  simp only [bytes64, hw, Int.toNat_ofNat, range_eight, List.map, le_value, byte_at]
  norm_num at hw' ⊢
  omega

theorem bytes64_length (v : Int) : (bytes64 v).length = 8 := by
  simp [bytes64]

theorem optval_integer_bytes64 (v : Int) (h1 : -2 ^ 63 ≤ v) (h2 : v < 2 ^ 63) :
    optval_integer (writeBuf (List.replicate 8 0) (bytes64 v)) = v := by
  have hl := bytes64_length v
  have hw : writeBuf (List.replicate 8 0) (bytes64 v) = bytes64 v := by
    have := writeBuf_replicate (bytes64 v)
    rw [hl] at this
    exact this
  rw [hw]
  unfold optval_integer
  rw [List.take_of_length_le (by rw [hl]), le_value_bytes64]
  unfold wrap64
  norm_num at h1 h2 ⊢
  omega

theorem wrap64_of_range (v : Int) (h1 : -2 ^ 63 ≤ v) (h2 : v < 2 ^ 63) : wrap64 v = v := by
  unfold wrap64
  norm_num at h1 h2 ⊢
  omega

theorem int_table_cases (H : Header) (x : Int) (hx : x ∈ H.int_table) :
    H.signed_group x ∨
    (¬ H.signed_group x ∧ x ≠ H.ZMQ_RCVMORE ∧ x ≠ H.ZMQ_IDENTITY ∧ x ≠ H.ZMQ_SUBSCRIBE
      ∧ x ≠ H.ZMQ_UNSUBSCRIBE ∧ H.unsigned_group x) := by
  have h := H.distinct
  simp only [Header.int_table, List.mem_cons, List.mem_singleton, List.not_mem_nil,
    or_false] at hx
  simp only [Header.signed_group, Header.unsigned_group]
  rcases hx with e | e | e | e | e | e | e | e
  · exact Or.inl (Or.inl e)
  · exact Or.inl (Or.inr (Or.inl e))
  · exact Or.inl (Or.inr (Or.inr (Or.inl e)))
  · exact Or.inl (Or.inr (Or.inr (Or.inr e)))
  all_goals
    subst e
    refine Or.inr ⟨?_, ?_, ?_, ?_, ?_, ?_⟩
  all_goals first
    | (rintro (e | e | e | e) <;> rw [e] at h <;> simp at h)
    | (intro e; rw [e] at h; simp at h)
    | simp

theorem setsockopt_int_eq (H : Header) (Z : Zmq E) (L : Lua) (args : List LuaValue)
    (st : State E) (s : Nat) (option v : Int)
    (hs : luaL_checkudata args 1 .MT_ZMQ_SOCKET = .ok s)
    (ho : luaL_checkint L args 2 = .ok option)
    (hx : option ∈ H.int_table)
    (hv : luaL_checklong L args 3 = .ok v) :
    Lzmq_setsockopt H Z L args st =
      .ok (return_rc Z args (call_zmq_setsockopt Z st (st.ptr s) option (bytes64 v))) := by
  unfold Lzmq_setsockopt
  rw [hs, ho]
  dsimp only
  rcases int_table_cases H option hx with hg | ⟨hn, _, hi, hsu, hun, hg⟩
  · simp only [Header.signed_group] at hg
    rw [if_pos hg, hv]
  · simp only [Header.signed_group] at hn
    simp only [Header.unsigned_group] at hg
    rw [if_neg hn, if_neg (fun h => h.elim hi (fun h => h.elim hsu hun)), if_pos hg, hv]

theorem setsockopt_string_eq (H : Header) (Z : Zmq E) (L : Lua) (args : List LuaValue)
    (st : State E) (s : Nat) (option : Int) (v : Bytes)
    (hs : luaL_checkudata args 1 .MT_ZMQ_SOCKET = .ok s)
    (ho : luaL_checkint L args 2 = .ok option)
    (hx : option = H.ZMQ_IDENTITY ∨ option = H.ZMQ_SUBSCRIBE ∨ option = H.ZMQ_UNSUBSCRIBE)
    (hv : luaL_checklstring L args 3 = .ok v) :
    Lzmq_setsockopt H Z L args st =
      .ok (return_rc Z args (call_zmq_setsockopt Z st (st.ptr s) option v)) := by
  have hn : ¬ (option = H.ZMQ_SWAP ∨ option = H.ZMQ_RATE ∨ option = H.ZMQ_RECOVERY_IVL
      ∨ option = H.ZMQ_MCAST_LOOP) := by
    have h := H.distinct
    rcases hx with e | e | e <;> subst e <;>
      (rintro (e | e | e | e) <;> rw [e] at h <;> simp at h)
  unfold Lzmq_setsockopt
  rw [hs, ho]
  dsimp only
  rw [if_neg hn, if_pos hx, hv]

theorem getsockopt_int_eq (H : Header) (Z : Zmq E) (L : Lua) (args : List LuaValue)
    (st : State E) (s : Nat) (option : Int)
    (hs : luaL_checkudata args 1 .MT_ZMQ_SOCKET = .ok s)
    (ho : luaL_checkint L args 2 = .ok option)
    (hx : option ∈ H.int_table) :
    let g := Z.zmq_getsockopt st.eng st.errno (st.ptr s) option 8
    let st1 := st.after (.zmq_getsockopt (st.ptr s) option 8) g.eng g.errno
    Lzmq_getsockopt H Z L args st = .ok (
      if g.rc = 0 then
        ([.number (optval_integer (writeBuf (List.replicate 8 0) g.optval))], st1)
      else
        (error_pair Z g.errno, { st1 with trace := st1.trace ++ error_fetch g.errno })) := by
  intro g st1
  have key : (if (call_zmq_getsockopt Z st (st.ptr s) option (List.replicate 8 0)).1 = 0 then
        (Except.ok (ret (args ++ [.number (optval_integer
            (call_zmq_getsockopt Z st (st.ptr s) option (List.replicate 8 0)).2.1)]) 1,
          (call_zmq_getsockopt Z st (st.ptr s) option (List.replicate 8 0)).2.2) :
          Except LuaError (List LuaValue × State E))
      else
        .ok (return_rc Z args ((call_zmq_getsockopt Z st (st.ptr s) option
            (List.replicate 8 0)).1,
          (call_zmq_getsockopt Z st (st.ptr s) option (List.replicate 8 0)).2.2))) =
      .ok (if g.rc = 0 then
        ([.number (optval_integer (writeBuf (List.replicate 8 0) g.optval))], st1)
      else
        (error_pair Z g.errno, { st1 with trace := st1.trace ++ error_fetch g.errno })) := by
    rw [call_zmq_getsockopt_eq Z st (st.ptr s) option _ 8 (List.length_replicate 8 0)]
    dsimp only
    by_cases hg : (Z.zmq_getsockopt st.eng st.errno (st.ptr s) option 8).rc = 0
    · rw [if_pos hg, if_pos hg, ret_one]
    · rw [if_neg hg, if_neg hg]
      simp only [return_rc, zmq_return_error, ret_two, ne_eq, hg, not_false_eq_true, if_true]
      rfl
  unfold Lzmq_getsockopt
  rw [hs, ho]
  dsimp only
  rcases int_table_cases H option hx with hg | ⟨hn, hr, hi, _, _, hg⟩
  · simp only [Header.signed_group] at hg
    have hg' : option = H.ZMQ_SWAP ∨ option = H.ZMQ_RATE ∨ option = H.ZMQ_RECOVERY_IVL
        ∨ option = H.ZMQ_MCAST_LOOP ∨ option = H.ZMQ_RCVMORE := by
      rcases hg with e | e | e | e
      · exact Or.inl e
      · exact Or.inr (Or.inl e)
      · exact Or.inr (Or.inr (Or.inl e))
      · exact Or.inr (Or.inr (Or.inr (Or.inl e)))
    rw [if_pos hg']
    exact key
  · simp only [Header.signed_group] at hn
    simp only [Header.unsigned_group] at hg
    have hn' : ¬ (option = H.ZMQ_SWAP ∨ option = H.ZMQ_RATE ∨ option = H.ZMQ_RECOVERY_IVL
        ∨ option = H.ZMQ_MCAST_LOOP ∨ option = H.ZMQ_RCVMORE) := by
      rintro (e | e | e | e | e)
      · exact hn (Or.inl e)
      · exact hn (Or.inr (Or.inl e))
      · exact hn (Or.inr (Or.inr (Or.inl e)))
      · exact hn (Or.inr (Or.inr (Or.inr e)))
      · exact hr e
    rw [if_neg hn', if_neg hi, if_pos hg]
    exact key

theorem getsockopt_default_eq (H : Header) (Z : Zmq E) (L : Lua) (args : List LuaValue)
    (st : State E) (s : Nat) (option : Int)
    (hs : luaL_checkudata args 1 .MT_ZMQ_SOCKET = .ok s)
    (ho : luaL_checkint L args 2 = .ok option)
    (hx : option = H.ZMQ_SUBSCRIBE ∨ option = H.ZMQ_UNSUBSCRIBE) :
    Lzmq_getsockopt H Z L args st = .ok (error_pair Z H.EINVAL,
      { st with errno := H.EINVAL, trace := st.trace ++ error_fetch H.EINVAL }) := by
  have h := H.distinct
  have h1 : ¬ (option = H.ZMQ_SWAP ∨ option = H.ZMQ_RATE ∨ option = H.ZMQ_RECOVERY_IVL
      ∨ option = H.ZMQ_MCAST_LOOP ∨ option = H.ZMQ_RCVMORE) := by
    rcases hx with e | e <;> subst e <;>
      (rintro (e | e | e | e | e) <;> rw [e] at h <;> simp at h)
  have h2 : ¬ option = H.ZMQ_IDENTITY := by
    rcases hx with e | e <;> subst e <;> (intro e; rw [e] at h; simp at h)
  have h3 : ¬ (option = H.ZMQ_HWM ∨ option = H.ZMQ_AFFINITY ∨ option = H.ZMQ_SNDBUF
      ∨ option = H.ZMQ_RCVBUF) := by
    rcases hx with e | e <;> subst e <;>
      (rintro (e | e | e | e) <;> rw [e] at h <;> simp at h)
  unfold Lzmq_getsockopt
  rw [hs, ho]
  dsimp only
  rw [if_neg h1, if_neg h2, if_neg h3]
  simp [return_rc, zmq_return_error, ret_two, error_pair, error_fetch]

theorem return_rc_setsockopt_ok (Z : Zmq E) (args : List LuaValue) (st : State E) (s : Nat)
    (option : Int) (v : Bytes) (h : (Z.zmq_setsockopt st.eng st.errno s option v).rc = 0) :
    return_rc Z args (call_zmq_setsockopt Z st s option v) =
      ([.boolean true], (call_zmq_setsockopt Z st s option v).2) := by
  simp [return_rc, call_zmq_setsockopt, h, ret_one]

theorem checklong_of_number (L : Lua) (args : List LuaValue) (n : Int)
    (h : lua_arg args 3 = some (.number n)) (h1 : -2 ^ 63 ≤ n) (h2 : n < 2 ^ 63) :
    luaL_checklong L args 3 = .ok n := by
  simp only [luaL_checklong, luaL_checkinteger, h]
  rw [wrap64_of_range n h1 h2]

theorem checklstring_of_string (L : Lua) (args : List LuaValue) (v : Bytes)
    (h : lua_arg args 3 = some (.string v)) : luaL_checklstring L args 3 = .ok v := by
  simp only [luaL_checklstring, h]

theorem identity_buffer_cstr (v : Bytes) (hl : v.length ≤ 255) (h0 : (0 : Byte) ∉ v) :
    cstr (identity_buffer (writeBuf (List.replicate 256 0) v)) = v := by
  have hw : writeBuf (List.replicate 256 0) v = v ++ List.replicate (256 - v.length) 0 := by
    unfold writeBuf
    rw [List.drop_replicate, List.length_replicate, List.take_of_length_le]
    rw [List.length_append, List.length_replicate]
    omega
  obtain ⟨k, hk⟩ : ∃ k, 256 - v.length = k + 1 := ⟨255 - v.length, by omega⟩
  rw [hw, hk, List.replicate_succ]
  unfold identity_buffer
  have : (v ++ 0 :: List.replicate k 0).set 255 0 = v ++ (0 :: List.replicate k 0).set (255 - v.length) 0 := by
    rw [List.set_append]
    rw [if_neg (by omega)]
  rw [this]
  cases hd : 255 - v.length with
  | zero => rw [List.set_cons_zero]; exact cstr_append_zero v _ h0
  | succ m => rw [List.set_cons_succ]; exact cstr_append_zero v _ h0

theorem after_setsockopt_stores (Z : Zmq E) (st : State E) (s : Nat) (option : Int) (v : Bytes)
    (n : Nat) (hn : v.length ≤ n) (hZ : StoresOptions Z st) :
    (Z.zmq_getsockopt (call_zmq_setsockopt Z st (st.ptr s) option v).2.eng
      (call_zmq_setsockopt Z st (st.ptr s) option v).2.errno
      ((call_zmq_setsockopt Z st (st.ptr s) option v).2.ptr s) option n).rc = 0 ∧
    (Z.zmq_getsockopt (call_zmq_setsockopt Z st (st.ptr s) option v).2.eng
      (call_zmq_setsockopt Z st (st.ptr s) option v).2.errno
      ((call_zmq_setsockopt Z st (st.ptr s) option v).2.ptr s) option n).optval = v :=
  (hZ (st.ptr s) option v).2 n hn

/-- C2, as amended: with an engine that stores option buffers and hands them back,
`setopt` followed by `getopt` with the same identifier on the same socket
returns the value that was set, for the eight integer options and every
integer in the range of a signed 64-bit integer, and for `ZMQ_IDENTITY` and
every byte string of at most 255 bytes without a zero byte; for `ZMQ_SUBSCRIBE`
and `ZMQ_UNSUBSCRIBE` the `setopt` succeeds and the `getopt` returns nil and the
description of `EINVAL`. -/
theorem setopt_getopt_roundtrip (H : Header) (Z : Zmq E) (L : Lua)
    (args args' : List LuaValue) (st : State E) (s : Nat) (option : Int)
    (hs : luaL_checkudata args 1 .MT_ZMQ_SOCKET = .ok s)
    (ho : luaL_checkint L args 2 = .ok option)
    (hs' : luaL_checkudata args' 1 .MT_ZMQ_SOCKET = .ok s)
    (ho' : luaL_checkint L args' 2 = .ok option)
    (hZ : StoresOptions Z st) :
    (∀ n : Int, option ∈ H.int_table → lua_arg args 3 = some (.number n) →
      -2 ^ 63 ≤ n → n < 2 ^ 63 →
      ∃ r1, Lzmq_setsockopt H Z L args st = .ok r1 ∧ r1.1 = [.boolean true] ∧
        ∃ r2, Lzmq_getsockopt H Z L args' r1.2 = .ok r2 ∧ r2.1 = [.number n]) ∧
    (∀ v : Bytes, option = H.ZMQ_IDENTITY → lua_arg args 3 = some (.string v) →
      v.length ≤ 255 → (0 : Byte) ∉ v →
      ∃ r1, Lzmq_setsockopt H Z L args st = .ok r1 ∧ r1.1 = [.boolean true] ∧
        ∃ r2, Lzmq_getsockopt H Z L args' r1.2 = .ok r2 ∧ r2.1 = [.string v]) ∧
    (∀ v : Bytes, option = H.ZMQ_SUBSCRIBE ∨ option = H.ZMQ_UNSUBSCRIBE →
      lua_arg args 3 = some (.string v) →
      ∃ r1, Lzmq_setsockopt H Z L args st = .ok r1 ∧ r1.1 = [.boolean true] ∧
        ∃ r2, Lzmq_getsockopt H Z L args' r1.2 = .ok r2 ∧
          r2.1 = [.nil, .string (cstr (Z.zmq_strerror H.EINVAL))]) := by
  refine ⟨?_, ?_, ?_⟩
  · intro n hx harg h1 h2
    have hset := setsockopt_int_eq H Z L args st s option n hs ho hx
      (checklong_of_number L args n harg h1 h2)
    rw [return_rc_setsockopt_ok Z args st _ _ _ (hZ _ _ _).1] at hset
    refine ⟨_, hset, rfl, ?_⟩
    have hst := after_setsockopt_stores Z st s option (bytes64 n) 8
      (by rw [bytes64_length]) hZ
    have hget := getsockopt_int_eq H Z L args'
      (call_zmq_setsockopt Z st (st.ptr s) option (bytes64 n)).2 s option hs' ho' hx
    dsimp only at hst hget ⊢
    rw [if_pos hst.1, hst.2, optval_integer_bytes64 n h1 h2] at hget
    exact ⟨_, hget, rfl⟩
  · intro v hx harg hl h0
    subst hx
    have hset := setsockopt_string_eq H Z L args st s _ v hs ho (Or.inl rfl)
      (checklstring_of_string L args v harg)
    rw [return_rc_setsockopt_ok Z args st _ _ _ (hZ _ _ _).1] at hset
    refine ⟨_, hset, rfl, ?_⟩
    have hst := after_setsockopt_stores Z st s H.ZMQ_IDENTITY v 256 (by omega) hZ
    have hget := getsockopt_identity_eq H Z L args'
      (call_zmq_setsockopt Z st (st.ptr s) H.ZMQ_IDENTITY v).2 s hs' ho'
    dsimp only at hst hget ⊢
    rw [if_pos hst.1, hst.2, identity_buffer_cstr v hl h0] at hget
    exact ⟨_, hget, rfl⟩
  · intro v hx harg
    have hset := setsockopt_string_eq H Z L args st s _ v hs ho (Or.inr hx)
      (checklstring_of_string L args v harg)
    rw [return_rc_setsockopt_ok Z args st _ _ _ (hZ _ _ _).1] at hset
    refine ⟨_, hset, rfl, ?_⟩
    exact ⟨_, getsockopt_default_eq H Z L args'
      (call_zmq_setsockopt Z st (st.ptr s) option v).2 s option hs' ho' hx, rfl⟩

theorem sim_stores (st : State Sim) (h : st.eng.script = []) : StoresOptions sim st := by
  intro s option optval
  have hstep : ∀ errno, st.eng.step errno = ⟨0, st.eng, errno⟩ :=
    fun errno => sim_step_idle st.eng errno h
  refine ⟨by simp [sim, hstep], ?_⟩
  intro n hn
  simp [sim, hstep, Sim.step, h, Sim.lookup, List.take_of_length_le hn]

/-- Witness for the amended C2: `ZMQ_HWM` set to 100 and read back, and
`ZMQ_IDENTITY` set to "abc" and read back, on the simulated engine. -/
theorem setopt_getopt_roundtrip_witness :
    (∃ r1, Lzmq_setsockopt zmq_h sim plain_lua [sock1, .number 1, .number 100]
        (init_state ⟨[], [], []⟩) = .ok r1 ∧ r1.1 = [.boolean true] ∧
      ∃ r2, Lzmq_getsockopt zmq_h sim plain_lua [sock1, .number 1] r1.2 = .ok r2 ∧
        r2.1 = [.number 100]) ∧
    (∃ r1, Lzmq_setsockopt zmq_h sim plain_lua [sock1, .number 5, .string [97, 98, 99]]
        (init_state ⟨[], [], []⟩) = .ok r1 ∧ r1.1 = [.boolean true] ∧
      ∃ r2, Lzmq_getsockopt zmq_h sim plain_lua [sock1, .number 5] r1.2 = .ok r2 ∧
        r2.1 = [.string [97, 98, 99]]) :=
  ⟨(setopt_getopt_roundtrip zmq_h sim plain_lua [sock1, .number 1, .number 100]
      [sock1, .number 1] (init_state ⟨[], [], []⟩) 1 1 rfl rfl rfl rfl
      (sim_stores _ rfl)).1 100 (by decide) rfl (by decide) (by decide),
   (setopt_getopt_roundtrip zmq_h sim plain_lua [sock1, .number 5, .string [97, 98, 99]]
      [sock1, .number 5] (init_state ⟨[], [], []⟩) 1 5 rfl rfl rfl rfl
      (sim_stores _ rfl)).2.1 [97, 98, 99] rfl rfl (by decide) (by decide)⟩

set_option maxRecDepth 100000 in
/-- Counterexample to C2 as stated: on the simulated engine, which stores option
buffers and hands them back, `ZMQ_SUBSCRIBE` set to "abc" reads back as nil and
the description of `EINVAL`, and `ZMQ_IDENTITY` set to the three bytes 97, 0, 98
reads back as the single byte 97. -/
theorem setopt_getopt_counterexample :
    StoresOptions sim (init_state ⟨[], [], []⟩) ∧
    results (Lzmq_setsockopt zmq_h sim plain_lua [sock1, .number 6, .string [97, 98, 99]]
      (init_state ⟨[], [], []⟩)) = some [.boolean true] ∧
    results (Lzmq_getsockopt zmq_h sim plain_lua [sock1, .number 6]
      (exec zmq_h sim plain_lua (init_state ⟨[], [], []⟩)
        (.setopt, [sock1, .number 6, .string [97, 98, 99]])))
      = some [.nil, .string [69, 73, 78, 86, 65, 76]] ∧
    results (Lzmq_setsockopt zmq_h sim plain_lua [sock1, .number 5, .string [97, 0, 98]]
      (init_state ⟨[], [], []⟩)) = some [.boolean true] ∧
    results (Lzmq_getsockopt zmq_h sim plain_lua [sock1, .number 5]
      (exec zmq_h sim plain_lua (init_state ⟨[], [], []⟩)
        (.setopt, [sock1, .number 5, .string [97, 0, 98]])))
      = some [.string [97]] :=
  ⟨sim_stores _ rfl, rfl, rfl, rfl, rfl⟩

/-- C7, the code at the failing input: when the native receive succeeds,
`Lzmq_recv_raw` pushes nothing and returns 1, so its result is its last
argument: the Message when the flags are omitted, the flags when they are
given, nil when nil is passed for the flags; `Lzmq_send_raw` returns true. -/
theorem recv_raw_success_result :
    results (Lzmq_recv_raw sim plain_lua [sock1, msg2] (message_state ⟨[], [], [[112]]⟩))
      = some [msg2] ∧
    results (Lzmq_recv_raw sim plain_lua [sock1, msg2, .number 0]
      (message_state ⟨[], [], [[112]]⟩)) = some [.number 0] ∧
    results (Lzmq_recv_raw sim plain_lua [sock1, msg2, .nil]
      (message_state ⟨[], [], [[112]]⟩)) = some [.nil] ∧
    results (Lzmq_send_raw sim plain_lua [sock1, msg2] (message_state ⟨[], [], []⟩))
      = some [.boolean true] ∧
    results (Lzmq_msg_data [msg2] (exec zmq_h sim plain_lua (message_state ⟨[], [], [[112]]⟩)
      (.recv_raw, [sock1, msg2]))) = some [.string [112]] :=
  ⟨rfl, rfl, rfl, rfl, rfl⟩

/-- C5, the code at the failing input: a Message is created, a `recv_raw` into it
fails in the native receive, and the Message is finalized. The trace holds two
native `zmq_msg_close` calls: the one `Lzmq_recv_raw` makes on its failure path,
with the address of its local pointer to the Message, and the finalizer's. -/
theorem recv_raw_failure_trace :
    (run zmq_h sim plain_lua
      [(.Message, []), (.recv_raw, [sock1, msg2]), (.msg_gc, [msg2])]
      (init_state ⟨[], [], []⟩)).trace =
      [.zmq_msg_init (.udata 2), .zmq_recv 8192 (.udata 2) 0, .zmq_msg_close (.of_ptr 2),
        .zmq_errno, .zmq_strerror 11, .zmq_msg_close (.udata 2)] ∧
    ((run zmq_h sim plain_lua
      [(.Message, []), (.recv_raw, [sock1, msg2]), (.msg_gc, [msg2])]
      (init_state ⟨[], [], []⟩)).trace.filter is_msg_close).length = 2 ∧
    (trace_of (Lzmq_recv_raw sim plain_lua [sock1, msg2] (message_state ⟨[], [], []⟩))).map
      (List.filter is_msg_close) = some [.zmq_msg_close (.of_ptr 2)] :=
  ⟨rfl, rfl, rfl⟩

/-- Counterexample to C6 as stated: in `Lzmq_recv` the native receive fails and
leaves `errno` 11, the `zmq_msg_close` that runs before the fetch fails and
leaves 14, and the string returned describes 14; in `Lzmq_send` the native send
fails with 11, the release that follows fails with 14, and the string describes
14. In both traces `zmq_msg_close` stands between the failing call and
`zmq_errno`. -/
theorem error_fetch_counterexample :
    results (Lzmq_recv sim plain_lua [sock1] (init_state ⟨[(0, 0), (-1, 11), (-1, 14)], [], []⟩))
      = some [.nil, .string (cstr (sim.zmq_strerror 14))] ∧
    trace_of (Lzmq_recv sim plain_lua [sock1]
      (init_state ⟨[(0, 0), (-1, 11), (-1, 14)], [], []⟩))
      = some [.zmq_msg_init .transient, .zmq_recv 8192 .transient 0,
          .zmq_msg_close .transient, .zmq_errno, .zmq_strerror 14] ∧
    (sim.zmq_recv ⟨[(-1, 11), (-1, 14)], [], []⟩ 0 8192 .transient 0).rc = -1 ∧
    (sim.zmq_recv ⟨[(-1, 11), (-1, 14)], [], []⟩ 0 8192 .transient 0).errno = 11 ∧
    results (Lzmq_send sim plain_lua [sock1, .string [112]]
      (init_state ⟨[(0, 0), (-1, 11), (-1, 14)], [], []⟩))
      = some [.nil, .string (cstr (sim.zmq_strerror 14))] ∧
    trace_of (Lzmq_send sim plain_lua [sock1, .string [112]]
      (init_state ⟨[(0, 0), (-1, 11), (-1, 14)], [], []⟩))
      = some [.zmq_msg_init_size .transient 1, .zmq_send 8192 .transient (some [112]) 0,
          .zmq_msg_close .transient, .zmq_errno, .zmq_strerror 14] ∧
    cstr (sim.zmq_strerror 14) ≠ cstr (sim.zmq_strerror 11) :=
  ⟨rfl, rfl, rfl, rfl, rfl, rfl, by decide⟩

theorem init_reports (Z : Zmq E) (L : Lua) (args : List LuaValue) (st : State E) (io : Int)
    (h : luaL_checkint L args 1 = .ok io) (hf : (Z.zmq_init st.eng st.errno io).ptr = 0) :
    ∃ r, Lzmq_init Z L args st = .ok r ∧
      Reports Z st r (.zmq_init io) (Z.zmq_init st.eng st.errno io).errno := by
  refine ⟨_, by simp only [Lzmq_init, h, call_zmq_init, hf, if_true]; rfl, ?_, [], ?_⟩
  · simp [zmq_return_error, ret, State.after]
  · simp [zmq_return_error, State.after]

theorem term_reports (Z : Zmq E) (args : List LuaValue) (st : State E) (ctx : Nat)
    (h : luaL_checkudata args 1 .MT_ZMQ_CONTEXT = .ok ctx) (hp : st.ptr ctx ≠ 0)
    (hf : (Z.zmq_term st.eng st.errno (st.ptr ctx)).rc ≠ 0) :
    ∃ r, Lzmq_term Z args st = .ok r ∧
      Reports Z st r (.zmq_term (st.ptr ctx)) (Z.zmq_term st.eng st.errno (st.ptr ctx)).errno := by
  refine ⟨_, by simp only [Lzmq_term, h, call_zmq_term, hf, hp, if_true, if_false, ne_eq,
    not_false_eq_true]; rfl, ?_, [], ?_⟩
  · simp [zmq_return_error, ret_two, State.after]
  · simp [zmq_return_error, State.after]

theorem socket_reports (Z : Zmq E) (L : Lua) (args : List LuaValue) (st : State E)
    (ctx : Nat) (type : Int)
    (h : luaL_checkudata args 1 .MT_ZMQ_CONTEXT = .ok ctx)
    (ht : luaL_checkint L args 2 = .ok type)
    (hf : (Z.zmq_socket st.eng st.errno (st.ptr ctx) type).ptr = 0) :
    ∃ r, Lzmq_socket Z L args st = .ok r ∧
      Reports Z st r (.zmq_socket (st.ptr ctx) type)
        (Z.zmq_socket st.eng st.errno (st.ptr ctx) type).errno := by
  refine ⟨_, by simp only [Lzmq_socket, h, ht, call_zmq_socket, hf, if_true]; rfl, ?_, [], ?_⟩
  · simp [zmq_return_error, ret, State.after]
  · simp [zmq_return_error, State.after]

theorem close_reports (Z : Zmq E) (args : List LuaValue) (st : State E) (s : Nat)
    (h : luaL_checkudata args 1 .MT_ZMQ_SOCKET = .ok s) (hp : st.ptr s ≠ 0)
    (hf : (Z.zmq_close st.eng st.errno (st.ptr s)).rc ≠ 0) :
    ∃ r, Lzmq_close Z args st = .ok r ∧
      Reports Z st r (.zmq_close (st.ptr s)) (Z.zmq_close st.eng st.errno (st.ptr s)).errno := by
  refine ⟨_, by simp only [Lzmq_close, h, call_zmq_close, hf, hp, if_true, if_false, ne_eq,
    not_false_eq_true]; rfl, ?_, [], ?_⟩
  · simp [zmq_return_error, ret_two, State.after]
  · simp [zmq_return_error, State.after]

theorem bind_reports (Z : Zmq E) (L : Lua) (args : List LuaValue) (st : State E)
    (s : Nat) (addr : Bytes)
    (h : luaL_checkudata args 1 .MT_ZMQ_SOCKET = .ok s)
    (ha : luaL_checkstring L args 2 = .ok addr)
    (hf : (Z.zmq_bind st.eng st.errno (st.ptr s) addr).rc ≠ 0) :
    ∃ r, Lzmq_bind Z L args st = .ok r ∧
      Reports Z st r (.zmq_bind (st.ptr s) addr)
        (Z.zmq_bind st.eng st.errno (st.ptr s) addr).errno := by
  refine ⟨_, by simp only [Lzmq_bind, h, ha, call_zmq_bind, hf, if_true, ne_eq,
    not_false_eq_true]; rfl, ?_, [], ?_⟩
  · simp [zmq_return_error, ret_two, State.after]
  · simp [zmq_return_error, State.after]

theorem connect_reports (Z : Zmq E) (L : Lua) (args : List LuaValue) (st : State E)
    (s : Nat) (addr : Bytes)
    (h : luaL_checkudata args 1 .MT_ZMQ_SOCKET = .ok s)
    (ha : luaL_checkstring L args 2 = .ok addr)
    (hf : (Z.zmq_connect st.eng st.errno (st.ptr s) addr).rc ≠ 0) :
    ∃ r, Lzmq_connect Z L args st = .ok r ∧
      Reports Z st r (.zmq_connect (st.ptr s) addr)
        (Z.zmq_connect st.eng st.errno (st.ptr s) addr).errno := by
  refine ⟨_, by simp only [Lzmq_connect, h, ha, call_zmq_connect, hf, if_true, ne_eq,
    not_false_eq_true]; rfl, ?_, [], ?_⟩
  · simp [zmq_return_error, ret_two, State.after]
  · simp [zmq_return_error, State.after]

theorem send_raw_reports (Z : Zmq E) (L : Lua) (args : List LuaValue) (st : State E)
    (s msg : Nat) (flags : Int)
    (h : luaL_checkudata args 1 .MT_ZMQ_SOCKET = .ok s)
    (hm : luaL_checkudata args 2 .MT_ZMQ_MESSAGE = .ok msg)
    (hfl : luaL_optint L args 3 0 = .ok flags)
    (hf : (Z.zmq_send st.eng st.errno (st.ptr s) (.udata msg) (st.frame (.udata msg)) flags).rc
      ≠ 0) :
    ∃ r, Lzmq_send_raw Z L args st = .ok r ∧
      Reports Z st r (.zmq_send (st.ptr s) (.udata msg) (st.frame (.udata msg)) flags)
        (Z.zmq_send st.eng st.errno (st.ptr s) (.udata msg) (st.frame (.udata msg)) flags).errno
      := by
  refine ⟨_, by simp only [Lzmq_send_raw, h, hm, hfl, call_zmq_send, hf, if_true, if_false,
    ne_eq, not_false_eq_true]; rfl, ?_, [], ?_⟩
  · simp [zmq_return_error, ret_two, State.after]
  · simp [zmq_return_error, State.after]

theorem setsockopt_reports (Z : Zmq E) (args : List LuaValue) (st : State E) (s : Nat)
    (option : Int) (optval : Bytes)
    (hf : (Z.zmq_setsockopt st.eng st.errno s option optval).rc ≠ 0) :
    Reports Z st (return_rc Z args (call_zmq_setsockopt Z st s option optval))
      (.zmq_setsockopt s option optval)
      (Z.zmq_setsockopt st.eng st.errno s option optval).errno := by
  refine ⟨?_, [], ?_⟩
  · simp [return_rc, call_zmq_setsockopt, hf, zmq_return_error, ret_two, State.after]
  · simp [return_rc, call_zmq_setsockopt, hf, zmq_return_error, State.after]

theorem getsockopt_rcvmore_eq (H : Header) (Z : Zmq E) (L : Lua) (args : List LuaValue)
    (st : State E) (s : Nat)
    (hs : luaL_checkudata args 1 .MT_ZMQ_SOCKET = .ok s)
    (ho : luaL_checkint L args 2 = .ok H.ZMQ_RCVMORE) :
    let g := Z.zmq_getsockopt st.eng st.errno (st.ptr s) H.ZMQ_RCVMORE 8
    let st1 := st.after (.zmq_getsockopt (st.ptr s) H.ZMQ_RCVMORE 8) g.eng g.errno
    Lzmq_getsockopt H Z L args st = .ok (
      if g.rc = 0 then
        ([.number (optval_integer (writeBuf (List.replicate 8 0) g.optval))], st1)
      else
        (error_pair Z g.errno, { st1 with trace := st1.trace ++ error_fetch g.errno })) := by
  intro g st1
  unfold Lzmq_getsockopt
  rw [hs, ho]
  dsimp only
  rw [if_pos (Or.inr (Or.inr (Or.inr (Or.inr rfl)))),
    call_zmq_getsockopt_eq Z st (st.ptr s) H.ZMQ_RCVMORE _ 8 (List.length_replicate 8 0)]
  dsimp only
  by_cases hg : (Z.zmq_getsockopt st.eng st.errno (st.ptr s) H.ZMQ_RCVMORE 8).rc = 0
  · rw [if_pos hg, if_pos hg, ret_one]
  · rw [if_neg hg, if_neg hg]
    simp only [return_rc, zmq_return_error, ret_two, ne_eq, hg, not_false_eq_true, if_true]
    rfl

theorem getsockopt_reports (Z : Zmq E) (st : State E) (s : Nat) (option : Int) (n : Nat)
    (ok : List LuaValue × State E) :
    let g := Z.zmq_getsockopt st.eng st.errno s option n
    let st1 := st.after (.zmq_getsockopt s option n) g.eng g.errno
    g.rc ≠ 0 →
    Reports Z st (if g.rc = 0 then ok
      else (error_pair Z g.errno, { st1 with trace := st1.trace ++ error_fetch g.errno }))
      (.zmq_getsockopt s option n) g.errno := by
  intro g st1 hf
  rw [if_neg hf]
  exact ⟨rfl, [], by simp [st1, State.after, error_fetch]⟩

theorem send_reports (Z : Zmq E) (args : List LuaValue) (st : State E) (s : Nat)
    (data : Bytes) (flags : Int) :
    let i := Z.zmq_msg_init_size st.eng st.errno .transient data.length
    let o := Z.zmq_send i.eng i.errno (st.ptr s) .transient (some data) flags
    let c := Z.zmq_msg_close o.eng o.errno .transient
    (i.rc ≠ 0 → Reports Z st (send_body Z args st s data flags)
      (.zmq_msg_init_size .transient data.length) i.errno) ∧
    (i.rc = 0 → o.rc ≠ 0 ∨ c.rc ≠ 0 → Reports Z st (send_body Z args st s data flags)
      (.zmq_msg_close .transient) c.errno ∧
      (send_body Z args st s data flags).2.trace = st.trace ++
        [.zmq_msg_init_size .transient data.length,
          .zmq_send (st.ptr s) .transient (some data) flags,
          .zmq_msg_close .transient, .zmq_errno, .zmq_strerror c.errno]) := by
  intro i o c
  have hr := send_body_results Z args st s data flags
  have ht := send_body_trace Z args st s data flags
  dsimp only at hr ht
  constructor
  · intro hi
    refine ⟨?_, [], ?_⟩
    · rw [hr, if_pos hi]; rfl
    · rw [ht, if_pos hi]; simp [error_fetch]
  · intro hi hoc
    have hi' : ¬ (Z.zmq_msg_init_size st.eng st.errno .transient data.length).rc ≠ 0 :=
      not_not.mpr hi
    have hoc' : (Z.zmq_msg_close (Z.zmq_send
        (Z.zmq_msg_init_size st.eng st.errno .transient data.length).eng
        (Z.zmq_msg_init_size st.eng st.errno .transient data.length).errno (st.ptr s)
        .transient (some data) flags).eng (Z.zmq_send
        (Z.zmq_msg_init_size st.eng st.errno .transient data.length).eng
        (Z.zmq_msg_init_size st.eng st.errno .transient data.length).errno (st.ptr s)
        .transient (some data) flags).errno .transient).rc ≠ 0 ∨
      (Z.zmq_send (Z.zmq_msg_init_size st.eng st.errno .transient data.length).eng
        (Z.zmq_msg_init_size st.eng st.errno .transient data.length).errno (st.ptr s)
        .transient (some data) flags).rc ≠ 0 := hoc.symm
    have htr : (send_body Z args st s data flags).2.trace = st.trace ++
        [.zmq_msg_init_size .transient data.length,
          .zmq_send (st.ptr s) .transient (some data) flags,
          .zmq_msg_close .transient, .zmq_errno, .zmq_strerror c.errno] := by
      rw [ht, if_neg hi', if_pos hoc']
      simp [error_fetch, c, o, i]
    refine ⟨⟨?_, [.zmq_msg_init_size .transient data.length,
        .zmq_send (st.ptr s) .transient (some data) flags], ?_⟩, htr⟩
    · rw [hr, if_neg hi']
      rcases hoc with h | h
      · by_cases hc : c.rc ≠ 0
        · rw [if_pos hc]; rfl
        · rw [if_neg hc, if_pos h]; rfl
      · rw [if_pos h]; rfl
    · rw [htr]; simp

theorem recv_reports (Z : Zmq E) (args : List LuaValue) (st : State E) (s : Nat)
    (flags : Int) :
    let i := Z.zmq_msg_init st.eng st.errno .transient
    let v := Z.zmq_recv i.eng i.errno (st.ptr s) .transient flags
    let c := Z.zmq_msg_close v.eng v.errno .transient
    (i.rc ≠ 0 → Reports Z st (recv_body Z args st s flags) (.zmq_msg_init .transient) i.errno) ∧
    (i.rc = 0 → v.rc ≠ 0 ∨ c.rc ≠ 0 → Reports Z st (recv_body Z args st s flags)
      (.zmq_msg_close .transient) c.errno ∧
      (recv_body Z args st s flags).2.trace = st.trace ++
        [.zmq_msg_init .transient, .zmq_recv (st.ptr s) .transient flags,
          .zmq_msg_close .transient, .zmq_errno, .zmq_strerror c.errno]) := by
  intro i v c
  have hr := recv_body_results Z args st s flags
  have ht := recv_body_trace Z args st s flags
  dsimp only at hr ht
  constructor
  · intro hi
    refine ⟨?_, [], ?_⟩
    · rw [hr, if_pos hi]; rfl
    · rw [ht, if_pos hi]; simp [error_fetch]
  · intro hi hvc
    have hi' : ¬ (Z.zmq_msg_init st.eng st.errno .transient).rc ≠ 0 := not_not.mpr hi
    have htr : (recv_body Z args st s flags).2.trace = st.trace ++
        [.zmq_msg_init .transient, .zmq_recv (st.ptr s) .transient flags,
          .zmq_msg_close .transient, .zmq_errno, .zmq_strerror c.errno] := by
      rw [ht, if_neg hi', if_pos hvc]
      simp [error_fetch, c, v, i]
    refine ⟨⟨?_, [.zmq_msg_init .transient, .zmq_recv (st.ptr s) .transient flags], ?_⟩, htr⟩
    · rw [hr, if_neg hi']
      rcases hvc with h | h
      · rw [if_pos h]; rfl
      · by_cases hv : v.rc ≠ 0
        · rw [if_pos hv]; rfl
        · rw [if_neg hv, if_pos h]; rfl
    · rw [htr]; simp

/-- C6, as amended: whenever a native call of `init`, `term`, `socket`, `close`,
`setopt`, `getopt`, `bind`, `connect` or `send_raw` fails, and whenever the frame
allocation or the frame release of `send` or `recv` fails, the operation returns
nil and the engine's description of the `errno` that failing call left, and that
call is the last native call before `zmq_errno` and `zmq_strerror`. When the
native send of `send` or the native receive of `recv` fails, `zmq_msg_close` on
the transient frame runs between the failing call and the fetch, and the string
returned describes the `errno` that `zmq_msg_close` left. -/
theorem error_string_source (H : Header) (Z : Zmq E) (L : Lua) (st : State E)
    (args : List LuaValue) :
    (∀ io, luaL_checkint L args 1 = .ok io → (Z.zmq_init st.eng st.errno io).ptr = 0 →
      ∃ r, Lzmq_init Z L args st = .ok r ∧
        Reports Z st r (.zmq_init io) (Z.zmq_init st.eng st.errno io).errno) ∧
    (∀ ctx, luaL_checkudata args 1 .MT_ZMQ_CONTEXT = .ok ctx → st.ptr ctx ≠ 0 →
      (Z.zmq_term st.eng st.errno (st.ptr ctx)).rc ≠ 0 →
      ∃ r, Lzmq_term Z args st = .ok r ∧
        Reports Z st r (.zmq_term (st.ptr ctx))
          (Z.zmq_term st.eng st.errno (st.ptr ctx)).errno) ∧
    (∀ ctx type, luaL_checkudata args 1 .MT_ZMQ_CONTEXT = .ok ctx →
      luaL_checkint L args 2 = .ok type →
      (Z.zmq_socket st.eng st.errno (st.ptr ctx) type).ptr = 0 →
      ∃ r, Lzmq_socket Z L args st = .ok r ∧
        Reports Z st r (.zmq_socket (st.ptr ctx) type)
          (Z.zmq_socket st.eng st.errno (st.ptr ctx) type).errno) ∧
    (∀ s, luaL_checkudata args 1 .MT_ZMQ_SOCKET = .ok s → st.ptr s ≠ 0 →
      (Z.zmq_close st.eng st.errno (st.ptr s)).rc ≠ 0 →
      ∃ r, Lzmq_close Z args st = .ok r ∧
        Reports Z st r (.zmq_close (st.ptr s))
          (Z.zmq_close st.eng st.errno (st.ptr s)).errno) ∧
    (∀ s option v, luaL_checkudata args 1 .MT_ZMQ_SOCKET = .ok s →
      luaL_checkint L args 2 = .ok option → option ∈ H.int_table →
      luaL_checklong L args 3 = .ok v →
      (Z.zmq_setsockopt st.eng st.errno (st.ptr s) option (bytes64 v)).rc ≠ 0 →
      ∃ r, Lzmq_setsockopt H Z L args st = .ok r ∧
        Reports Z st r (.zmq_setsockopt (st.ptr s) option (bytes64 v))
          (Z.zmq_setsockopt st.eng st.errno (st.ptr s) option (bytes64 v)).errno) ∧
    (∀ s option v, luaL_checkudata args 1 .MT_ZMQ_SOCKET = .ok s →
      luaL_checkint L args 2 = .ok option →
      option = H.ZMQ_IDENTITY ∨ option = H.ZMQ_SUBSCRIBE ∨ option = H.ZMQ_UNSUBSCRIBE →
      luaL_checklstring L args 3 = .ok v →
      (Z.zmq_setsockopt st.eng st.errno (st.ptr s) option v).rc ≠ 0 →
      ∃ r, Lzmq_setsockopt H Z L args st = .ok r ∧
        Reports Z st r (.zmq_setsockopt (st.ptr s) option v)
          (Z.zmq_setsockopt st.eng st.errno (st.ptr s) option v).errno) ∧
    (∀ s option, luaL_checkudata args 1 .MT_ZMQ_SOCKET = .ok s →
      luaL_checkint L args 2 = .ok option →
      option ∈ H.int_table ∨ option = H.ZMQ_RCVMORE →
      (Z.zmq_getsockopt st.eng st.errno (st.ptr s) option 8).rc ≠ 0 →
      ∃ r, Lzmq_getsockopt H Z L args st = .ok r ∧
        Reports Z st r (.zmq_getsockopt (st.ptr s) option 8)
          (Z.zmq_getsockopt st.eng st.errno (st.ptr s) option 8).errno) ∧
    (∀ s, luaL_checkudata args 1 .MT_ZMQ_SOCKET = .ok s →
      luaL_checkint L args 2 = .ok H.ZMQ_IDENTITY →
      (Z.zmq_getsockopt st.eng st.errno (st.ptr s) H.ZMQ_IDENTITY 256).rc ≠ 0 →
      ∃ r, Lzmq_getsockopt H Z L args st = .ok r ∧
        Reports Z st r (.zmq_getsockopt (st.ptr s) H.ZMQ_IDENTITY 256)
          (Z.zmq_getsockopt st.eng st.errno (st.ptr s) H.ZMQ_IDENTITY 256).errno) ∧
    (∀ s addr, luaL_checkudata args 1 .MT_ZMQ_SOCKET = .ok s →
      luaL_checkstring L args 2 = .ok addr →
      (Z.zmq_bind st.eng st.errno (st.ptr s) addr).rc ≠ 0 →
      ∃ r, Lzmq_bind Z L args st = .ok r ∧
        Reports Z st r (.zmq_bind (st.ptr s) addr)
          (Z.zmq_bind st.eng st.errno (st.ptr s) addr).errno) ∧
    (∀ s addr, luaL_checkudata args 1 .MT_ZMQ_SOCKET = .ok s →
      luaL_checkstring L args 2 = .ok addr →
      (Z.zmq_connect st.eng st.errno (st.ptr s) addr).rc ≠ 0 →
      ∃ r, Lzmq_connect Z L args st = .ok r ∧
        Reports Z st r (.zmq_connect (st.ptr s) addr)
          (Z.zmq_connect st.eng st.errno (st.ptr s) addr).errno) ∧
    (∀ s msg flags, luaL_checkudata args 1 .MT_ZMQ_SOCKET = .ok s →
      luaL_checkudata args 2 .MT_ZMQ_MESSAGE = .ok msg →
      luaL_optint L args 3 0 = .ok flags →
      (Z.zmq_send st.eng st.errno (st.ptr s) (.udata msg) (st.frame (.udata msg)) flags).rc
        ≠ 0 →
      ∃ r, Lzmq_send_raw Z L args st = .ok r ∧
        Reports Z st r (.zmq_send (st.ptr s) (.udata msg) (st.frame (.udata msg)) flags)
          (Z.zmq_send st.eng st.errno (st.ptr s) (.udata msg) (st.frame (.udata msg))
            flags).errno) ∧
    (∀ s data flags, luaL_checkudata args 1 .MT_ZMQ_SOCKET = .ok s →
      luaL_checklstring L args 2 = .ok data → luaL_optint L args 3 0 = .ok flags →
      let i := Z.zmq_msg_init_size st.eng st.errno .transient data.length
      let o := Z.zmq_send i.eng i.errno (st.ptr s) .transient (some data) flags
      let c := Z.zmq_msg_close o.eng o.errno .transient
      ∃ r, Lzmq_send Z L args st = .ok r ∧
        (i.rc ≠ 0 → Reports Z st r (.zmq_msg_init_size .transient data.length) i.errno) ∧
        (i.rc = 0 → o.rc ≠ 0 ∨ c.rc ≠ 0 →
          Reports Z st r (.zmq_msg_close .transient) c.errno ∧
          r.2.trace = st.trace ++ [.zmq_msg_init_size .transient data.length,
            .zmq_send (st.ptr s) .transient (some data) flags,
            .zmq_msg_close .transient, .zmq_errno, .zmq_strerror c.errno])) ∧
    (∀ s flags, luaL_checkudata args 1 .MT_ZMQ_SOCKET = .ok s →
      luaL_optint L args 2 0 = .ok flags →
      let i := Z.zmq_msg_init st.eng st.errno .transient
      let v := Z.zmq_recv i.eng i.errno (st.ptr s) .transient flags
      let c := Z.zmq_msg_close v.eng v.errno .transient
      ∃ r, Lzmq_recv Z L args st = .ok r ∧
        (i.rc ≠ 0 → Reports Z st r (.zmq_msg_init .transient) i.errno) ∧
        (i.rc = 0 → v.rc ≠ 0 ∨ c.rc ≠ 0 →
          Reports Z st r (.zmq_msg_close .transient) c.errno ∧
          r.2.trace = st.trace ++ [.zmq_msg_init .transient,
            .zmq_recv (st.ptr s) .transient flags,
            .zmq_msg_close .transient, .zmq_errno, .zmq_strerror c.errno])) := by
  refine ⟨?_, ?_, ?_, ?_, ?_, ?_, ?_, ?_, ?_, ?_, ?_, ?_, ?_⟩
  · intro io h hf
    exact init_reports Z L args st io h hf
  · intro ctx h hp hf
    exact term_reports Z args st ctx h hp hf
  · intro ctx type h ht hf
    exact socket_reports Z L args st ctx type h ht hf
  · intro s h hp hf
    exact close_reports Z args st s h hp hf
  · intro s option v hs ho hx hv hf
    exact ⟨_, setsockopt_int_eq H Z L args st s option v hs ho hx hv,
      setsockopt_reports Z args st (st.ptr s) option (bytes64 v) hf⟩
  · intro s option v hs ho hx hv hf
    exact ⟨_, setsockopt_string_eq H Z L args st s option v hs ho hx hv,
      setsockopt_reports Z args st (st.ptr s) option v hf⟩
  · intro s option hs ho hx hf
    rcases hx with hx | hx
    · exact ⟨_, getsockopt_int_eq H Z L args st s option hs ho hx,
        getsockopt_reports Z st (st.ptr s) option 8 _ hf⟩
    · subst hx
      exact ⟨_, getsockopt_rcvmore_eq H Z L args st s hs ho,
        getsockopt_reports Z st (st.ptr s) H.ZMQ_RCVMORE 8 _ hf⟩
  · intro s hs ho hf
    exact ⟨_, getsockopt_identity_eq H Z L args st s hs ho,
      getsockopt_reports Z st (st.ptr s) H.ZMQ_IDENTITY 256 _ hf⟩
  · intro s addr h ha hf
    exact bind_reports Z L args st s addr h ha hf
  · intro s addr h ha hf
    exact connect_reports Z L args st s addr h ha hf
  · intro s msg flags h hm hfl hf
    exact send_raw_reports Z L args st s msg flags h hm hfl hf
  · intro s data flags hs hd hfl
    exact ⟨_, Lzmq_send_eq Z L args st s data flags hs hd hfl,
      send_reports Z args st s data flags⟩
  · intro s flags hs hfl
    exact ⟨_, Lzmq_recv_eq Z L args st s flags hs hfl, recv_reports Z args st s flags⟩

/-- Witness for the amended C6: a receive whose native receive fails with `errno`
11 and whose release fails with 14 returns the description of 14. -/
theorem error_string_source_witness :
    ∃ r, Lzmq_recv sim plain_lua [sock1]
        (init_state ⟨[(0, 0), (-1, 11), (-1, 14)], [], []⟩) = .ok r ∧
      r.1 = [.nil, .string [69, 70, 65, 85, 76, 84]] :=
  match (error_string_source zmq_h sim plain_lua
    (init_state ⟨[(0, 0), (-1, 11), (-1, 14)], [], []⟩) [sock1]).2.2.2.2.2.2.2.2.2.2.2.2
      1 0 rfl rfl with
  | ⟨r, hr, _, h2⟩ => ⟨r, hr, (h2 rfl (Or.inl (by decide))).1.1⟩

end LuaZmq
